import Mathlib

/-!
Shallow embedding of the clinic record-keeping service (`main.py`).

The Redis store is modelled as an explicit state (`RState`): string keys
(counters, the bootstrap sentinel), hashes (entity records as association
lists), and sets (doctor-patient link sets).  Every primitive store call
consumes one entry of an outage schedule (`outages`): a `true` entry makes
that call raise a connection error, mirroring `redis.exceptions.ConnectionError`.
Each primitive also bumps a call counter (`calls`), so "zero store accesses"
is observable.  Integer values travel as decimal strings, as they do in
Redis; parsing is modelled by `String.toInt?` (Python's `int()` / Redis's
integer parse on the values that actually arise).
-/

/-- Association-list lookup (Redis keyed access). -/
def alookup {α : Type} : List (String × α) → String → Option α
  | [], _ => none
  | (k, v) :: rest, key => if k = key then some v else alookup rest key

/-- Association-list update: replace in place if the key exists, else append. -/
def aset {α : Type} : List (String × α) → String → α → List (String × α)
  | [], key, val => [(key, val)]
  | (k, v) :: rest, key, val =>
    if k = key then (key, val) :: rest else (k, v) :: aset rest key val

/-- Error raised by a store primitive: `conn` is a connection failure
(caught by every handler), `resp` a Redis protocol error such as
incrementing a non-integer value (not caught by the handlers). -/
inductive RErr where
  | conn
  | resp
deriving Repr, DecidableEq

/-- The modelled Redis state plus the outage schedule and a call counter. -/
structure RState where
  kv : List (String × String)
  hashes : List (String × List (String × String))
  sets : List (String × List String)
  outages : List Bool
  calls : Nat
deriving Repr, DecidableEq

/-- State-and-exception monad for store computations: the state reached at
the moment an exception is raised is preserved (writes before a connection
failure persist, as in the real store). -/
def M (α : Type) : Type := RState → Except RErr α × RState

def pureR {α : Type} (a : α) : M α := fun s => (.ok a, s)

def bindR {α β : Type} (x : M α) (f : α → M β) : M β := fun s =>
  match x s with
  | (.ok a, s1) => f a s1
  | (.error e, s1) => (.error e, s1)

/-- Consume one entry of the outage schedule and count the store call. -/
def step (s : RState) : Bool × RState :=
  (s.outages.headD false,
   { s with outages := s.outages.tail, calls := s.calls + 1 })

/-- `r.get(key)`: value of a string key, `none` if absent. -/
def rget (key : String) : M (Option String) := fun s =>
  match step s with
  | (true, s1) => (.error .conn, s1)
  | (false, s1) => (.ok (alookup s1.kv key), s1)

/-- `r.set(key, val)`. -/
def rset (key val : String) : M Unit := fun s =>
  match step s with
  | (true, s1) => (.error .conn, s1)
  | (false, s1) => (.ok (), { s1 with kv := aset s1.kv key val })

/-- `r.incr(key)`: absent key counts as 0; a non-integer value raises a
protocol error (`RErr.resp`). -/
def rincr (key : String) : M Unit := fun s =>
  match step s with
  | (true, s1) => (.error .conn, s1)
  | (false, s1) =>
    match alookup s1.kv key with
    | none => (.ok (), { s1 with kv := aset s1.kv key "1" })
    | some v =>
      match v.toInt? with
      | some n => (.ok (), { s1 with kv := aset s1.kv key (Int.repr (n + 1)) })
      | none => (.error .resp, s1)

/-- `r.hset(key, field, val)`: returns 1 when the field is newly created,
0 when it already existed (the value is overwritten either way). -/
def rhset (key field val : String) : M Nat := fun s =>
  match step s with
  | (true, s1) => (.error .conn, s1)
  | (false, s1) =>
    let record := (alookup s1.hashes key).getD []
    let added : Nat := if (alookup record field).isSome then 0 else 1
    (.ok added, { s1 with hashes := aset s1.hashes key (aset record field val) })

/-- `r.hgetall(key)`: the stored field map, empty if absent. -/
def rhgetall (key : String) : M (List (String × String)) := fun s =>
  match step s with
  | (true, s1) => (.error .conn, s1)
  | (false, s1) => (.ok ((alookup s1.hashes key).getD []), s1)

/-- `r.sadd(key, member)`: add to a set, no effect if already present. -/
def rsadd (key member : String) : M Unit := fun s =>
  match step s with
  | (true, s1) => (.error .conn, s1)
  | (false, s1) =>
    let cur := (alookup s1.sets key).getD []
    (.ok (),
     { s1 with sets := aset s1.sets key (if member ∈ cur then cur else cur ++ [member]) })

/-- `r.smembers(key)`. -/
def rsmembers (key : String) : M (List String) := fun s =>
  match step s with
  | (true, s1) => (.error .conn, s1)
  | (false, s1) => (.ok ((alookup s1.sets key).getD []), s1)

/-- HTTP-level outcome of a handler: status code and body. -/
structure Response where
  status : Nat
  body : String
deriving Repr, DecidableEq

/-- Run a handler body: a connection error becomes the uniform
400 "Redis connection refused" reply; an uncaught protocol error becomes
a 500 (Tornado's internal error page). -/
def handle (m : M Response) : RState → Response × RState := fun s =>
  match m s with
  | (.ok resp, s1) => (resp, s1)
  | (.error .conn, s1) => ({ status := 400, body := "Redis connection refused" }, s1)
  | (.error .resp, s1) => ({ status := 500, body := "Internal Server Error" }, s1)

/-- `_autoid_key`. -/
def autoid_key (entity : String) : String := entity ++ ":autoID"

/-- `_entity_key`. -/
def entity_key (entity id : String) : String := entity ++ ":" ++ id

/-- `_doctor_patient_key`. -/
def doctor_patient_key (doctorId : String) : String := "doctor-patient:" ++ doctorId

/-- `raw_id.decode() if raw_id else "0"` (`None` and the empty byte string
are falsy in Python). -/
def decodeOr0 : Option String → String
  | none => "0"
  | some v => if v = "" then "0" else v

/-- `HospitalHandler.post`. -/
def HospitalHandler.post (name address beds_number phone : String) : M Response :=
  if name = "" || address = "" then
    pureR { status := 400, body := "Hospital name and address required" }
  else
    bindR (rget (autoid_key "hospital")) (fun raw_id =>
    let hospital_id := decodeOr0 raw_id
    bindR (rhset (entity_key "hospital" hospital_id) "name" name) (fun w1 =>
    bindR (rhset (entity_key "hospital" hospital_id) "address" address) (fun w2 =>
    bindR (rhset (entity_key "hospital" hospital_id) "phone" phone) (fun w3 =>
    bindR (rhset (entity_key "hospital" hospital_id) "beds_number" beds_number) (fun w4 =>
    bindR (rincr (autoid_key "hospital")) (fun _ =>
    pureR (if w1 + w2 + w3 + w4 ≠ 4 then
             { status := 500, body := "Something went terribly wrong" }
           else
             { status := 200, body := "OK: ID " ++ hospital_id ++ " for " ++ name })))))))

/-- `DoctorHandler.post`. -/
def DoctorHandler.post (surname profession hospital_ID : String) : M Response :=
  if surname = "" || profession = "" then
    pureR { status := 400, body := "Surname and profession required" }
  else
    bindR (rget (autoid_key "doctor")) (fun raw_id =>
    let doctor_id := decodeOr0 raw_id
    let writes : M Response :=
      bindR (rhset (entity_key "doctor" doctor_id) "surname" surname) (fun w1 =>
      bindR (rhset (entity_key "doctor" doctor_id) "profession" profession) (fun w2 =>
      bindR (rhset (entity_key "doctor" doctor_id) "hospital_ID" hospital_ID) (fun w3 =>
      bindR (rincr (autoid_key "doctor")) (fun _ =>
      pureR (if w1 + w2 + w3 ≠ 3 then
               { status := 500, body := "Something went terribly wrong" }
             else
               { status := 200, body := "OK: ID " ++ doctor_id ++ " for " ++ surname })))))
    if hospital_ID = "" then writes
    else
      bindR (rhgetall (entity_key "hospital" hospital_ID)) (fun hospital =>
      if hospital = [] then
        pureR { status := 400, body := "No hospital with such ID" }
      else writes))

/-- `PatientHandler.post`. -/
def PatientHandler.post (surname born_date sex mpn : String) : M Response :=
  if surname = "" || born_date = "" || sex = "" || mpn = "" then
    pureR { status := 400, body := "All fields required" }
  else if sex ≠ "M" ∧ sex ≠ "F" then
    pureR { status := 400, body := "Sex must be M or F" }
  else
    bindR (rget (autoid_key "patient")) (fun raw_id =>
    let patient_id := decodeOr0 raw_id
    bindR (rhset (entity_key "patient" patient_id) "surname" surname) (fun w1 =>
    bindR (rhset (entity_key "patient" patient_id) "born_date" born_date) (fun w2 =>
    bindR (rhset (entity_key "patient" patient_id) "sex" sex) (fun w3 =>
    bindR (rhset (entity_key "patient" patient_id) "mpn" mpn) (fun w4 =>
    bindR (rincr (autoid_key "patient")) (fun _ =>
    pureR (if w1 + w2 + w3 + w4 ≠ 4 then
             { status := 500, body := "Something went terribly wrong" }
           else
             { status := 200, body := "OK: ID " ++ patient_id ++ " for " ++ surname })))))))

/-- `DiagnosisHandler.post`. -/
def DiagnosisHandler.post (patient_ID diagnosis_type information : String) : M Response :=
  if patient_ID = "" || diagnosis_type = "" then
    pureR { status := 400, body := "Patiend ID and diagnosis type required" }
  else
    bindR (rget (autoid_key "diagnosis")) (fun raw_id =>
    let diagnosis_id := decodeOr0 raw_id
    bindR (rhgetall (entity_key "patient" patient_ID)) (fun patient =>
    if patient = [] then
      pureR { status := 400, body := "No patient with such ID" }
    else
      bindR (rhset (entity_key "diagnosis" diagnosis_id) "patient_ID" patient_ID) (fun w1 =>
      bindR (rhset (entity_key "diagnosis" diagnosis_id) "type" diagnosis_type) (fun w2 =>
      bindR (rhset (entity_key "diagnosis" diagnosis_id) "information" information) (fun w3 =>
      bindR (rincr (autoid_key "diagnosis")) (fun _ =>
      pureR (if w1 + w2 + w3 ≠ 3 then
               { status := 500, body := "Something went terribly wrong" }
             else
               { status := 200,
                 body := "OK: ID " ++ diagnosis_id ++ " for patient "
                           ++ ((alookup patient "surname").getD "") })))))))

/-- `DoctorPatientHandler.post`. -/
def DoctorPatientHandler.post (doctor_ID patient_ID : String) : M Response :=
  if doctor_ID = "" || patient_ID = "" then
    pureR { status := 400, body := "ID required" }
  else
    bindR (rhgetall (entity_key "patient" patient_ID)) (fun patient =>
    bindR (rhgetall (entity_key "doctor" doctor_ID)) (fun doctor =>
    if patient = [] || doctor = [] then
      pureR { status := 400, body := "No such ID for doctor or patient" }
    else
      bindR (rsadd (doctor_patient_key doctor_ID) patient_ID) (fun _ =>
      pureR { status := 200,
              body := "OK: doctor ID: " ++ doctor_ID ++ ", patient ID: " ++ patient_ID })))

/-- Loop body of `BaseHandler._fetch_hash_items`: `for i in range(auto_id)`,
keeping only non-empty records, in ascending identifier order. -/
def fetch_loop (entity : String) : List Nat → M (List (List (String × String)))
  | [] => pureR []
  | i :: rest =>
    bindR (rhgetall (entity_key entity (Nat.repr i))) (fun result =>
    bindR (fetch_loop entity rest) (fun items =>
    pureR (if result = [] then items else result :: items)))

/-- `BaseHandler._fetch_hash_items`: an absent, empty, or non-integer
counter yields the empty list. -/
def BaseHandler.fetch_hash_items (entity : String) : M (List (List (String × String))) :=
  bindR (rget (autoid_key entity)) (fun raw_auto_id =>
    match raw_auto_id with
    | none => pureR []
    | some v =>
      if v = "" then pureR []
      else
        match v.toInt? with
        | none => pureR []
        | some auto_id => fetch_loop entity (List.range auto_id.toNat))

/-- `init_db`: idempotent bootstrap guarded by the `db_initiated` sentinel. -/
def init_db : M Unit :=
  bindR (rget "db_initiated") (fun db_initiated =>
    if db_initiated = none || db_initiated = some "" then
      bindR (rset (autoid_key "hospital") "1") (fun _ =>
      bindR (rset (autoid_key "doctor") "1") (fun _ =>
      bindR (rset (autoid_key "patient") "1") (fun _ =>
      bindR (rset (autoid_key "diagnosis") "1") (fun _ =>
      rset "db_initiated" "1"))))
    else pureR ())

/-- One create request of any of the four record entity types. -/
inductive CreateOp where
  | hospital (name address beds_number phone : String)
  | doctor (surname profession hospital_ID : String)
  | patient (surname born_date sex mpn : String)
  | diagnosis (patient_ID diagnosis_type information : String)
deriving Repr, DecidableEq

def CreateOp.entity : CreateOp → String
  | .hospital .. => "hospital"
  | .doctor .. => "doctor"
  | .patient .. => "patient"
  | .diagnosis .. => "diagnosis"

def CreateOp.run : CreateOp → M Response
  | .hospital n a b p => HospitalHandler.post n a b p
  | .doctor s p h => DoctorHandler.post s p h
  | .patient s b x m => PatientHandler.post s b x m
  | .diagnosis p t i => DiagnosisHandler.post p t i

/-- The field map a create writes, in write order. -/
def CreateOp.fields : CreateOp → List (String × String)
  | .hospital n a b p => [("name", n), ("address", a), ("phone", p), ("beds_number", b)]
  | .doctor s p h => [("surname", s), ("profession", p), ("hospital_ID", h)]
  | .patient s b x m => [("surname", s), ("born_date", b), ("sex", x), ("mpn", m)]
  | .diagnosis p t i => [("patient_ID", p), ("type", t), ("information", i)]

/-- Run a list of creates in sequence, collecting the responses. -/
def runCreates : List CreateOp → RState → List Response × RState
  | [], s => ([], s)
  | op :: rest, s =>
    let x := handle op.run s
    let y := runCreates rest x.2
    (x.1 :: y.1, y.2)

def emptyState : RState := { kv := [], hashes := [], sets := [], outages := [], calls := 0 }

/-- The state right after a fresh bootstrap. -/
def sBoot : RState := (init_db emptyState).2

/-- Effect on a record of writing a field list left to right (one `hset`
per field). -/
def writeFold (r : List (String × String)) (fields : List (String × String)) :
    List (String × String) :=
  fields.foldl (fun m fv => aset m fv.1 fv.2) r

/-- Sum of the `hset` return values when writing a field list left to
right into a record: each write contributes 1 exactly when its field name
was absent at that moment. -/
def wcount : List (String × String) → List (String × String) → Nat
  | _, [] => 0
  | r, fv :: rest =>
    (if (alookup r fv.1).isSome then 0 else 1) + wcount (aset r fv.1 fv.2) rest

/-- Effect of `r.incr(key)` on the string keys: `none` when the stored
value is not an integer (protocol error). -/
def incrKV (kv : List (String × String)) (key : String) :
    Option (List (String × String)) :=
  match alookup kv key with
  | none => some (aset kv key "1")
  | some v => (v.toInt?).map (fun n => aset kv key (Int.repr (n + 1)))

/-- The counter value moved from `oldv` to `newv` by one increment. -/
def advanced (oldv newv : Option String) : Prop :=
  (oldv = none ∧ newv = some "1") ∨
  (∃ v m, oldv = some v ∧ v.toInt? = some m ∧ newv = some (Int.repr (m + 1)))

/-- `r.incr(key)` would succeed (absent key, or integer value). -/
def incr_ok (kv : List (String × String)) (key : String) : Prop :=
  match alookup kv key with
  | none => True
  | some v => (v.toInt?).isSome

/-- `members(doctor_id)`: the doctor-patient link set of a doctor. -/
def members (s : RState) (doctorId : String) : List String :=
  (alookup s.sets (doctor_patient_key doctorId)).getD []

/-- Effect of `sadd` on one member list. -/
def saddList (cur : List String) (member : String) : List String :=
  if member ∈ cur then cur else cur ++ [member]

/-- The five `set` writes of a fresh bootstrap, in order. -/
def initWrite (kv : List (String × String)) : List (String × String) :=
  aset (aset (aset (aset (aset kv (autoid_key "hospital") "1")
    (autoid_key "doctor") "1") (autoid_key "patient") "1")
    (autoid_key "diagnosis") "1") "db_initiated" "1"


/-- The create's required-field validation fails (missing and empty
arguments coincide in this embedding; for Patient this includes the sex
domain check). -/
def CreateOp.missing_required : CreateOp → Prop
  | .hospital n a _ _ => n = "" ∨ a = ""
  | .doctor s p _ => s = "" ∨ p = ""
  | .patient s b x m => s = "" ∨ b = "" ∨ x = "" ∨ m = "" ∨ (x ≠ "M" ∧ x ≠ "F")
  | .diagnosis p t _ => p = "" ∨ t = ""

/-- The validation message the handler emits (for Patient, the
missing-field check fires before the sex domain check). -/
def CreateOp.validation_body : CreateOp → String
  | .hospital _ _ _ _ => "Hospital name and address required"
  | .doctor _ _ _ => "Surname and profession required"
  | .patient s b x m =>
    if s = "" ∨ b = "" ∨ x = "" ∨ m = "" then "All fields required"
    else "Sex must be M or F"
  | .diagnosis _ _ _ => "Patiend ID and diagnosis type required"

/-- Combined outcome of the write phase shared by all four create
handlers: peeked identifier `id`, field writes, then the unconditional
counter increment, then the write-count check. -/
def writePhase (e id okBody : String) (fields : List (String × String))
    (s : RState) (extra : Nat) : Response × RState :=
  let key := entity_key e id
  let rec0 := (alookup s.hashes key).getD []
  let hashes' := aset s.hashes key (writeFold rec0 fields)
  match incrKV s.kv (autoid_key e) with
  | some kv' =>
    ((if wcount rec0 fields ≠ fields.length then
        { status := 500, body := "Something went terribly wrong" }
      else { status := 200, body := okBody }),
     { s with kv := kv', hashes := hashes', calls := s.calls + extra })
  | none =>
    ({ status := 500, body := "Internal Server Error" },
     { s with hashes := hashes', calls := s.calls + extra })

/-- The reference checks the create performs succeed in state `s`. -/
def CreateOp.refs_ok (op : CreateOp) (s : RState) : Prop :=
  match op with
  | .hospital .. => True
  | .doctor _ _ hid =>
    hid = "" ∨ (alookup s.hashes (entity_key "hospital" hid)).getD [] ≠ []
  | .patient .. => True
  | .diagnosis pid _ _ => (alookup s.hashes (entity_key "patient" pid)).getD [] ≠ []

/-- The record key a create targets: its type's counter value as peeked. -/
def peek_key (op : CreateOp) (s : RState) : String :=
  entity_key op.entity (decodeOr0 (alookup s.kv (autoid_key op.entity)))

/-- String keys right after bootstrap. -/
def initKv : List (String × String) :=
  [("hospital:autoID", "1"), ("doctor:autoID", "1"), ("patient:autoID", "1"),
   ("diagnosis:autoID", "1"), ("db_initiated", "1")]

/-- The hash store holding the records `l` at identifiers
`start, start+1, ...` of entity type `e`. -/
def recsAux (e : String) : Nat → List (List (String × String)) →
    List (String × List (String × String))
  | _, [] => []
  | i, f :: rest => (entity_key e (Nat.repr i), f) :: recsAux e (i + 1) rest

/-- Invariant after `l.length` successful creates of type `e` from the
bootstrapped state: counter at `l.length + 1`, records at 1..`l.length`. -/
def Good (e : String) (l : List (List (String × String))) (s : RState) : Prop :=
  s.kv = aset initKv (autoid_key e) (Nat.repr (l.length + 1)) ∧
  s.hashes = recsAux e 1 l ∧
  s.outages = []

/-- The record sequence the list operation assembles for the given
identifiers: skip empty records, keep ascending order. -/
def listRecords (s : RState) (e : String) (ids : List Nat) :
    List (List (String × String)) :=
  (ids.map (fun i => (alookup s.hashes (entity_key e (Nat.repr i))).getD [])).filter
    (fun r => r ≠ [])

/-! ### Association-list lemmas -/

theorem alookup_aset_self {α : Type} (l : List (String × α)) (k : String) (v : α) :
    alookup (aset l k v) k = some v := by
  induction l with
  | nil => simp [aset, alookup]
  | cons p rest ih =>
    by_cases h : p.1 = k
    · simp [aset, h, alookup]
    · simp [aset, h, alookup, ih]

theorem alookup_aset_ne {α : Type} (l : List (String × α)) (k k' : String) (v : α)
    (h : k ≠ k') : alookup (aset l k v) k' = alookup l k' := by
  induction l with
  | nil => simp [aset, alookup, h]
  | cons p rest ih =>
    obtain ⟨k1, v1⟩ := p
    by_cases hp : k1 = k
    · subst hp
      simp [aset, alookup, h, Ne.symm h]
    · by_cases hp' : k1 = k'
      · simp [aset, hp, alookup, hp', Ne.symm h]
      · simp [aset, hp, alookup, hp', ih]

theorem aset_absent {α : Type} (l : List (String × α)) (k : String) (v : α)
    (h : alookup l k = none) : aset l k v = l ++ [(k, v)] := by
  induction l with
  | nil => simp [aset]
  | cons p rest ih =>
    by_cases hp : p.1 = k
    · simp [alookup, hp] at h
    · simp [alookup, hp] at h
      simp [aset, hp, ih h]

theorem aset_aset_same {α : Type} (l : List (String × α)) (k : String) (v w : α) :
    aset (aset l k v) k w = aset l k w := by
  induction l with
  | nil => simp [aset]
  | cons p rest ih =>
    by_cases hp : p.1 = k
    · simp [aset, hp]
    · simp [aset, hp, ih]

/-! ### Decimal printing/parsing round trip -/

theorem toDigitsCore_eq_digits (fuel n : Nat) (acc : List Char)
    (hfuel : n < fuel) (hn : 0 < n) :
    Nat.toDigitsCore 10 fuel n acc
      = ((Nat.digits 10 n).reverse.map Nat.digitChar) ++ acc := by
  induction fuel generalizing n acc with
  | zero => omega
  | succ f ih =>
    rw [Nat.toDigitsCore]
    by_cases h10 : n / 10 = 0
    · simp only [h10, if_true]
      rw [Nat.digits_def' (by norm_num : (1 : ℕ) < 10) hn, h10, Nat.digits_zero]
      simp
    · simp only [h10, if_false]
      have hlt : n / 10 < n := Nat.div_lt_self hn (by norm_num)
      rw [ih (n / 10) _ (by omega) (Nat.pos_of_ne_zero h10)]
      rw [Nat.digits_def' (by norm_num : (1 : ℕ) < 10) hn]
      simp

theorem toDigits_eq_digits (n : Nat) (hn : 0 < n) :
    Nat.toDigits 10 n = (Nat.digits 10 n).reverse.map Nat.digitChar := by
  rw [Nat.toDigits, toDigitsCore_eq_digits (n + 1) n [] (Nat.lt_succ_self n) hn,
    List.append_nil]

theorem repr_data (n : Nat) : (Nat.repr n).data = Nat.toDigits 10 n := rfl

theorem toDigits_ne_nil (n : Nat) : Nat.toDigits 10 n ≠ [] := by
  rcases Nat.eq_zero_or_pos n with h | h
  · subst h; decide
  · rw [toDigits_eq_digits n h]
    simp [Nat.digits_ne_nil_iff_ne_zero, h.ne']

theorem toDigits_all_digit (n : Nat) : ∀ c ∈ Nat.toDigits 10 n, c.isDigit = true := by
  rcases Nat.eq_zero_or_pos n with h | h
  · subst h; decide
  · rw [toDigits_eq_digits n h]
    intro c hc
    simp only [List.mem_map, List.mem_reverse] at hc
    obtain ⟨d, hd, rfl⟩ := hc
    have hlt : d < 10 := Nat.digits_lt_base (by norm_num) hd
    interval_cases d <;> decide

theorem digitChar_val {d : Nat} (h : d < 10) : (Nat.digitChar d).toNat - '0'.toNat = d := by
  interval_cases d <;> decide

theorem foldl_digitChars (l : List Nat) (hl : ∀ d ∈ l, d < 10) (a : Nat) :
    ((l.reverse.map Nat.digitChar).foldl (fun n c => n * 10 + (c.toNat - '0'.toNat)) a)
      = a * 10 ^ l.length + Nat.ofDigits 10 l := by
  induction l generalizing a with
  | nil => simp [Nat.ofDigits]
  | cons d rest ih =>
    simp only [List.reverse_cons, List.map_append, List.foldl_append, List.map_cons,
      List.map_nil, List.foldl_cons, List.foldl_nil]
    rw [ih (fun x hx => hl x (List.mem_cons_of_mem _ hx))]
    rw [digitChar_val (hl d (List.mem_cons_self _ _))]
    rw [Nat.ofDigits_cons]
    simp only [List.length_cons, pow_succ]
    ring

theorem repr_ne_empty (n : Nat) : Nat.repr n ≠ "" := by
  intro h
  have : (Nat.repr n).data = ("" : String).data := by rw [h]
  rw [repr_data] at this
  exact toDigits_ne_nil n this

theorem toNat?_repr (n : Nat) : (Nat.repr n).toNat? = some n := by
  have hall : (Nat.repr n).all Char.isDigit = true := by
    rw [String.all_eq, repr_data]
    exact List.all_eq_true.mpr (toDigits_all_digit n)
  have hne : (Nat.repr n).isEmpty = false := by
    rcases h : (Nat.repr n).isEmpty with _ | _
    · rfl
    · exact absurd ((String.isEmpty_iff _).mp h) (repr_ne_empty n)
  have hNat : (Nat.repr n).isNat = true := by
    simp [String.isNat, hne, hall]
  rw [String.toNat?, if_pos hNat]
  congr 1
  rw [String.foldl_eq]
  show (Nat.toDigits 10 n).foldl _ 0 = n
  rcases Nat.eq_zero_or_pos n with h0 | hpos
  · subst h0; decide
  · rw [toDigits_eq_digits n hpos,
      foldl_digitChars _ (fun d hd => Nat.digits_lt_base (by norm_num) hd) 0]
    simp [Nat.ofDigits_digits]

theorem string_get_zero (s : String) : s.get 0 = s.data.headD default := by
  simpa using String.get_of_valid [] s.data

theorem repr_head_digit (n : Nat) : ((Nat.repr n).data.headD default).isDigit = true := by
  have hall := toDigits_all_digit n
  rw [repr_data]
  rcases h : Nat.toDigits 10 n with _ | ⟨c, cs⟩
  · exact absurd h (toDigits_ne_nil n)
  · simpa using hall c (by rw [h]; exact List.mem_cons_self _ _)

theorem toInt?_repr (n : Nat) : (Nat.repr n).toInt? = some (Int.ofNat n) := by
  have hd : (Nat.repr n).get 0 ≠ '-' := by
    rw [string_get_zero]
    intro h
    have hdig := repr_head_digit n
    rw [h] at hdig
    exact absurd hdig (by decide)
  simp [String.toInt?, hd, toNat?_repr]

theorem toNat?_eval (s : String) :
    s.toNat? = if (!s.data.isEmpty && s.data.all Char.isDigit) = true then
        some (s.data.foldl (fun n c => n * 10 + (c.toNat - '0'.toNat)) 0)
      else none := by
  have hempt : s.isEmpty = s.data.isEmpty := by
    cases s with
    | mk l =>
      cases l with
      | nil => rfl
      | cons c cs =>
        have h1 : String.isEmpty ⟨c :: cs⟩ = false := by
          rcases hb : String.isEmpty ⟨c :: cs⟩ with _ | _
          · rfl
          · have hdata := congrArg String.data ((String.isEmpty_iff _).mp hb)
            simp at hdata
        rw [h1]
        rfl
  have hNat : s.isNat = (!s.data.isEmpty && s.data.all Char.isDigit) := by
    rw [String.isNat, String.all_eq, hempt]
  simp only [String.toNat?, String.foldl_eq, hNat]

theorem toInt?_eval_nonneg (s : String) (h : s.data.headD default ≠ '-') :
    s.toInt? = s.toNat?.map Int.ofNat := by
  have hg : ¬ s.get 0 = '-' := by rw [string_get_zero]; exact h
  simp [String.toInt?, hg]

/-! ### Outage-free run characterizations of the handlers -/

theorem hospital_run (n a b p : String) (s : RState) (hout : s.outages = []) :
    handle (HospitalHandler.post n a b p) s =
      if n = "" ∨ a = "" then
        ({ status := 400, body := "Hospital name and address required" }, s)
      else
        writePhase "hospital" (decodeOr0 (alookup s.kv (autoid_key "hospital")))
          ("OK: ID " ++ decodeOr0 (alookup s.kv (autoid_key "hospital")) ++ " for " ++ n)
          [("name", n), ("address", a), ("phone", p), ("beds_number", b)] s 6 := by
  by_cases hv : n = "" ∨ a = ""
  · rw [if_pos hv]
    obtain h | h := hv <;> simp [handle, HospitalHandler.post, pureR, h]
  · rw [if_neg hv]
    rw [not_or] at hv
    obtain ⟨hn, ha⟩ := hv
    rcases hc : alookup s.kv (autoid_key "hospital") with _ | v
    · simp [HospitalHandler.post, bindR, pureR, rget, rhset, rincr, step, hout, hn, ha,
        handle, writePhase, incrKV, writeFold, wcount, hc, alookup_aset_self,
        aset_aset_same, Nat.add_assoc]
    · rcases ht : v.toInt? with _ | m
      · simp [HospitalHandler.post, bindR, pureR, rget, rhset, rincr, step, hout, hn, ha,
          handle, writePhase, incrKV, writeFold, wcount, hc, ht, alookup_aset_self,
          aset_aset_same, Nat.add_assoc]
      · simp [HospitalHandler.post, bindR, pureR, rget, rhset, rincr, step, hout, hn, ha,
          handle, writePhase, incrKV, writeFold, wcount, hc, ht, alookup_aset_self,
          aset_aset_same, Nat.add_assoc]

theorem patient_run (sn bd sex mpn : String) (s : RState) (hout : s.outages = []) :
    handle (PatientHandler.post sn bd sex mpn) s =
      if sn = "" ∨ bd = "" ∨ sex = "" ∨ mpn = "" then
        ({ status := 400, body := "All fields required" }, s)
      else if sex ≠ "M" ∧ sex ≠ "F" then
        ({ status := 400, body := "Sex must be M or F" }, s)
      else
        writePhase "patient" (decodeOr0 (alookup s.kv (autoid_key "patient")))
          ("OK: ID " ++ decodeOr0 (alookup s.kv (autoid_key "patient")) ++ " for " ++ sn)
          [("surname", sn), ("born_date", bd), ("sex", sex), ("mpn", mpn)] s 6 := by
  by_cases hv : sn = "" ∨ bd = "" ∨ sex = "" ∨ mpn = ""
  · rw [if_pos hv]
    obtain h | h | h | h := hv <;> simp [handle, PatientHandler.post, pureR, h]
  · rw [if_neg hv]
    rw [not_or, not_or, not_or] at hv
    obtain ⟨h1, h2, h3, h4⟩ := hv
    by_cases hsex : sex ≠ "M" ∧ sex ≠ "F"
    · rw [if_pos hsex]
      simp [handle, PatientHandler.post, pureR, h1, h2, h3, h4, hsex]
    · rw [if_neg hsex]
      rcases hc : alookup s.kv (autoid_key "patient") with _ | v
      · simp [PatientHandler.post, bindR, pureR, rget, rhset, rincr, step, hout,
          h1, h2, h3, h4, hsex, handle, writePhase, incrKV, writeFold, wcount, hc,
          alookup_aset_self, aset_aset_same, Nat.add_assoc]
      · rcases ht : v.toInt? with _ | m
        · simp [PatientHandler.post, bindR, pureR, rget, rhset, rincr, step, hout,
            h1, h2, h3, h4, hsex, handle, writePhase, incrKV, writeFold, wcount, hc, ht,
            alookup_aset_self, aset_aset_same, Nat.add_assoc]
        · simp [PatientHandler.post, bindR, pureR, rget, rhset, rincr, step, hout,
            h1, h2, h3, h4, hsex, handle, writePhase, incrKV, writeFold, wcount, hc, ht,
            alookup_aset_self, aset_aset_same, Nat.add_assoc]

theorem doctor_run (sn pr hid : String) (s : RState) (hout : s.outages = []) :
    handle (DoctorHandler.post sn pr hid) s =
      if sn = "" ∨ pr = "" then
        ({ status := 400, body := "Surname and profession required" }, s)
      else if hid ≠ "" ∧ (alookup s.hashes (entity_key "hospital" hid)).getD [] = [] then
        ({ status := 400, body := "No hospital with such ID" },
         { s with calls := s.calls + 2 })
      else
        writePhase "doctor" (decodeOr0 (alookup s.kv (autoid_key "doctor")))
          ("OK: ID " ++ decodeOr0 (alookup s.kv (autoid_key "doctor")) ++ " for " ++ sn)
          [("surname", sn), ("profession", pr), ("hospital_ID", hid)] s
          (if hid = "" then 5 else 6) := by
  by_cases hv : sn = "" ∨ pr = ""
  · rw [if_pos hv]
    obtain h | h := hv <;> simp [handle, DoctorHandler.post, pureR, h]
  · rw [if_neg hv]
    rw [not_or] at hv
    obtain ⟨h1, h2⟩ := hv
    by_cases hhid : hid = ""
    · rw [if_neg (by simp [hhid])]
      rcases hc : alookup s.kv (autoid_key "doctor") with _ | v
      · simp [DoctorHandler.post, bindR, pureR, rget, rhset, rincr, step, hout,
          h1, h2, hhid, handle, writePhase, incrKV, writeFold, wcount, hc,
          alookup_aset_self, aset_aset_same, Nat.add_assoc]
      · rcases ht : v.toInt? with _ | m
        · simp [DoctorHandler.post, bindR, pureR, rget, rhset, rincr, step, hout,
            h1, h2, hhid, handle, writePhase, incrKV, writeFold, wcount, hc, ht,
            alookup_aset_self, aset_aset_same, Nat.add_assoc]
        · simp [DoctorHandler.post, bindR, pureR, rget, rhset, rincr, step, hout,
            h1, h2, hhid, handle, writePhase, incrKV, writeFold, wcount, hc, ht,
            alookup_aset_self, aset_aset_same, Nat.add_assoc]
    · by_cases hrec : (alookup s.hashes (entity_key "hospital" hid)).getD [] = []
      · rw [if_pos ⟨hhid, hrec⟩]
        simp [DoctorHandler.post, bindR, pureR, rget, rhgetall, step, hout,
          h1, h2, hhid, hrec, handle]
      · rw [if_neg (by simp [hrec])]
        rcases hc : alookup s.kv (autoid_key "doctor") with _ | v
        · simp [DoctorHandler.post, bindR, pureR, rget, rhset, rhgetall, rincr, step, hout,
            h1, h2, hhid, hrec, handle, writePhase, incrKV, writeFold, wcount, hc,
            alookup_aset_self, aset_aset_same, Nat.add_assoc]
        · rcases ht : v.toInt? with _ | m
          · simp [DoctorHandler.post, bindR, pureR, rget, rhset, rhgetall, rincr, step, hout,
              h1, h2, hhid, hrec, handle, writePhase, incrKV, writeFold, wcount, hc, ht,
              alookup_aset_self, aset_aset_same, Nat.add_assoc]
          · simp [DoctorHandler.post, bindR, pureR, rget, rhset, rhgetall, rincr, step, hout,
              h1, h2, hhid, hrec, handle, writePhase, incrKV, writeFold, wcount, hc, ht,
              alookup_aset_self, aset_aset_same, Nat.add_assoc]

theorem diagnosis_run (pid dt info : String) (s : RState) (hout : s.outages = []) :
    handle (DiagnosisHandler.post pid dt info) s =
      if pid = "" ∨ dt = "" then
        ({ status := 400, body := "Patiend ID and diagnosis type required" }, s)
      else if (alookup s.hashes (entity_key "patient" pid)).getD [] = [] then
        ({ status := 400, body := "No patient with such ID" },
         { s with calls := s.calls + 2 })
      else
        writePhase "diagnosis" (decodeOr0 (alookup s.kv (autoid_key "diagnosis")))
          ("OK: ID " ++ decodeOr0 (alookup s.kv (autoid_key "diagnosis"))
            ++ " for patient "
            ++ ((alookup ((alookup s.hashes (entity_key "patient" pid)).getD [])
                  "surname").getD ""))
          [("patient_ID", pid), ("type", dt), ("information", info)] s 6 := by
  by_cases hv : pid = "" ∨ dt = ""
  · rw [if_pos hv]
    obtain h | h := hv <;> simp [handle, DiagnosisHandler.post, pureR, h]
  · rw [if_neg hv]
    rw [not_or] at hv
    obtain ⟨h1, h2⟩ := hv
    by_cases hrec : (alookup s.hashes (entity_key "patient" pid)).getD [] = []
    · rw [if_pos hrec]
      simp [DiagnosisHandler.post, bindR, pureR, rget, rhgetall, step, hout,
        h1, h2, hrec, handle]
    · rw [if_neg hrec]
      rcases hc : alookup s.kv (autoid_key "diagnosis") with _ | v
      · simp [DiagnosisHandler.post, bindR, pureR, rget, rhset, rhgetall, rincr, step, hout,
          h1, h2, hrec, handle, writePhase, incrKV, writeFold, wcount, hc,
          alookup_aset_self, aset_aset_same, Nat.add_assoc]
      · rcases ht : v.toInt? with _ | m
        · simp [DiagnosisHandler.post, bindR, pureR, rget, rhset, rhgetall, rincr, step,
            hout, h1, h2, hrec, handle, writePhase, incrKV, writeFold, wcount, hc, ht,
            alookup_aset_self, aset_aset_same, Nat.add_assoc]
        · simp [DiagnosisHandler.post, bindR, pureR, rget, rhset, rhgetall, rincr, step,
            hout, h1, h2, hrec, handle, writePhase, incrKV, writeFold, wcount, hc, ht,
            alookup_aset_self, aset_aset_same, Nat.add_assoc]

theorem link_run (d p : String) (s : RState) (hout : s.outages = []) :
    handle (DoctorPatientHandler.post d p) s =
      if d = "" ∨ p = "" then
        ({ status := 400, body := "ID required" }, s)
      else if (alookup s.hashes (entity_key "patient" p)).getD [] = [] ∨
              (alookup s.hashes (entity_key "doctor" d)).getD [] = [] then
        ({ status := 400, body := "No such ID for doctor or patient" },
         { s with calls := s.calls + 2 })
      else
        ({ status := 200, body := "OK: doctor ID: " ++ d ++ ", patient ID: " ++ p },
         { s with sets := aset s.sets (doctor_patient_key d) (saddList (members s d) p), calls := s.calls + 3 }) := by
  by_cases hv : d = "" ∨ p = ""
  · rw [if_pos hv]
    obtain h | h := hv <;> simp [handle, DoctorPatientHandler.post, pureR, h]
  · rw [if_neg hv]
    rw [not_or] at hv
    obtain ⟨h1, h2⟩ := hv
    by_cases hrec : (alookup s.hashes (entity_key "patient" p)).getD [] = [] ∨
        (alookup s.hashes (entity_key "doctor" d)).getD [] = []
    · rw [if_pos hrec]
      rcases hrec with h | h <;>
        simp [DoctorPatientHandler.post, bindR, pureR, rhgetall, step, hout,
          h1, h2, h, handle]
    · rw [if_neg hrec]
      rw [not_or] at hrec
      obtain ⟨hp, hd⟩ := hrec
      simp [DoctorPatientHandler.post, bindR, pureR, rhgetall, rsadd, step, hout,
        h1, h2, hp, hd, handle, Nat.add_assoc, saddList, members]

theorem init_run (s : RState) (hout : s.outages = []) :
    init_db s =
      if alookup s.kv "db_initiated" = none ∨ alookup s.kv "db_initiated" = some "" then
        (.ok (),
         { s with kv := initWrite s.kv, calls := s.calls + 6 })
      else (.ok (), { s with calls := s.calls + 1 }) := by
  rcases hc : alookup s.kv "db_initiated" with _ | v
  · simp [init_db, bindR, pureR, rget, rset, step, hout, hc, Nat.add_assoc, initWrite]
  · by_cases hv : v = ""
    · subst hv
      simp [init_db, bindR, pureR, rget, rset, step, hout, hc, Nat.add_assoc, initWrite]
    · simp [init_db, bindR, pureR, rget, rset, step, hout, hc, hv, Nat.add_assoc, initWrite]

theorem fetch_loop_run (e : String) (ids : List Nat) (s : RState)
    (hout : s.outages = []) :
    fetch_loop e ids s =
      (.ok (listRecords s e ids), { s with calls := s.calls + ids.length }) := by
  induction ids generalizing s with
  | nil => simp [fetch_loop, pureR, listRecords]
  | cons i rest ih =>
    obtain ⟨kv, hs, st, out, c⟩ := s
    simp only at hout
    subst hout
    simp only [fetch_loop, bindR, rhgetall, step, List.headD_nil, List.tail_nil]
    rw [ih _ rfl]
    by_cases hr : (alookup hs (entity_key e (Nat.repr i))).getD [] = []
    · simp [pureR, listRecords, hr, Nat.add_assoc]
      omega
    · simp [pureR, listRecords, hr, Nat.add_assoc]
      omega

theorem fetch_run (e : String) (s : RState) (hout : s.outages = []) :
    BaseHandler.fetch_hash_items e s =
      match alookup s.kv (autoid_key e) with
      | none => (.ok [], { s with calls := s.calls + 1 })
      | some v =>
        if v = "" then (.ok [], { s with calls := s.calls + 1 })
        else
          match v.toInt? with
          | none => (.ok [], { s with calls := s.calls + 1 })
          | some m =>
            (.ok (listRecords s e (List.range m.toNat)),
             { s with calls := s.calls + 1 + m.toNat }) := by
  rcases hc : alookup s.kv (autoid_key e) with _ | v
  · simp [BaseHandler.fetch_hash_items, bindR, pureR, rget, step, hout, hc]
  · by_cases hv : v = ""
    · subst hv
      simp [BaseHandler.fetch_hash_items, bindR, pureR, rget, step, hout, hc]
    · rcases ht : v.toInt? with _ | m
      · simp [BaseHandler.fetch_hash_items, bindR, pureR, rget, step, hout, hc, hv, ht]
      · simp only [BaseHandler.fetch_hash_items, bindR, rget, step, hout,
          List.headD_nil, List.tail_nil, hc, hv, ht, if_neg, Bool.false_eq_true,
          ite_false]
        have hout2 : (RState.mk s.kv s.hashes s.sets List.nil (s.calls + 1)).outages = [] := rfl
        rw [fetch_loop_run e _ _ hout2]
        simp [listRecords, Nat.add_assoc]

/-! ### Record-table (`recsAux`) lemmas -/

theorem string_data_inj {s t : String} (h : s.data = t.data) : s = t :=
  congrArg String.mk h

theorem entity_key_inj (e x y : String) (h : entity_key e x = entity_key e y) : x = y := by
  have hd := congrArg String.data h
  simp only [entity_key, String.data_append] at hd
  exact string_data_inj (List.append_cancel_left hd)

theorem nat_repr_inj {i j : Nat} (h : Nat.repr i = Nat.repr j) : i = j := by
  have h2 := toNat?_repr i
  rw [h, toNat?_repr j] at h2
  exact (Option.some_inj.mp h2).symm

theorem hospital_key_ne_doctor (x y : String) :
    entity_key "hospital" x ≠ entity_key "doctor" y := by
  intro h
  have hd := congrArg String.data h
  simp only [entity_key, String.data_append] at hd
  simp at hd

theorem patient_key_ne_diagnosis (x y : String) :
    entity_key "patient" x ≠ entity_key "diagnosis" y := by
  intro h
  have hd := congrArg String.data h
  simp only [entity_key, String.data_append] at hd
  simp at hd

theorem alookup_recsAux (e : String) (l : List (List (String × String))) :
    ∀ start k, alookup (recsAux e start l) (entity_key e (Nat.repr k))
      = if start ≤ k then l.get? (k - start) else none := by
  induction l with
  | nil =>
    intro start k
    simp [recsAux, alookup, List.get?]
  | cons f rest ih =>
    intro start k
    simp only [recsAux, alookup]
    by_cases hk : start = k
    · subst hk
      simp [List.get?]
    · have hne : entity_key e (Nat.repr start) ≠ entity_key e (Nat.repr k) :=
        fun hh => hk (nat_repr_inj (entity_key_inj _ _ _ hh))
      rw [if_neg hne, ih (start + 1) k]
      by_cases hle : start ≤ k
      · rw [if_pos (by omega : start + 1 ≤ k), if_pos hle]
        have harith : k - start = (k - (start + 1)) + 1 := by omega
        rw [harith]
        rfl
      · rw [if_neg (by omega), if_neg hle]

theorem alookup_recsAux_shape (e : String) (l : List (List (String × String))) :
    ∀ start k r, alookup (recsAux e start l) k = some r →
      ∃ j, k = entity_key e (Nat.repr j) := by
  induction l with
  | nil => intro start k r h; simp [recsAux, alookup] at h
  | cons f rest ih =>
    intro start k r h
    simp only [recsAux, alookup] at h
    by_cases hk : entity_key e (Nat.repr start) = k
    · exact ⟨start, hk.symm⟩
    · rw [if_neg hk] at h
      exact ih (start + 1) k r h

theorem recsAux_append (e : String) (f : List (String × String)) :
    ∀ (l : List (List (String × String))) start,
      recsAux e start (l ++ [f]) = recsAux e start l ++ [(entity_key e (Nat.repr (start + l.length)), f)] := by
  intro l
  induction l with
  | nil => intro start; simp [recsAux]
  | cons g rest ih =>
    intro start
    simp only [List.cons_append, recsAux, List.length_cons, List.append_eq]
    rw [ih (start + 1)]
    have harith : start + 1 + rest.length = start + (rest.length + 1) := by omega
    rw [harith]

theorem int_repr_ofNat (m : Nat) : Int.repr (Int.ofNat m) = Nat.repr m := rfl

theorem ofNat_add_one (m : Nat) : (Int.ofNat m) + 1 = Int.ofNat (m + 1) := rfl

theorem fields_ne_nil (op : CreateOp) : op.fields ≠ [] := by
  cases op <;> simp [CreateOp.fields]

theorem good_boot (e : String)
    (he : e = "hospital" ∨ e = "doctor" ∨ e = "patient" ∨ e = "diagnosis") :
    Good e [] sBoot := by
  obtain rfl | rfl | rfl | rfl := he <;> exact ⟨by decide, by decide, by decide⟩

theorem writePhase_good (e : String) (l : List (List (String × String))) (s : RState)
    (okBody : String) (fields : List (String × String)) (extra : Nat)
    (hkv : s.kv = aset initKv (autoid_key e) (Nat.repr (l.length + 1)))
    (hhash : s.hashes = recsAux e 1 l) (hout : s.outages = [])
    (hwf : writeFold [] fields = fields) :
    Good e (l ++ [fields])
      (writePhase e (decodeOr0 (alookup s.kv (autoid_key e))) okBody fields s extra).2 := by
  have hcnt : alookup s.kv (autoid_key e) = some (Nat.repr (l.length + 1)) := by
    rw [hkv]; exact alookup_aset_self _ _ _
  have hdec : decodeOr0 (alookup s.kv (autoid_key e)) = Nat.repr (l.length + 1) := by
    rw [hcnt]; simp [decodeOr0, repr_ne_empty]
  have hrec : alookup s.hashes (entity_key e (Nat.repr (l.length + 1))) = none := by
    rw [hhash, alookup_recsAux, if_pos (by omega : 1 ≤ l.length + 1)]
    simp [List.get?_eq_none]
  have hincr : incrKV s.kv (autoid_key e)
      = some (aset s.kv (autoid_key e) (Nat.repr (l.length + 2))) := by
    rw [incrKV, hcnt]
    simp only [toInt?_repr, Option.map]
    rw [ofNat_add_one, int_repr_ofNat]
  rw [hdec]
  simp only [writePhase, hincr, hrec, Option.getD_none, hwf]
  refine ⟨?_, ?_, hout⟩
  · simp only [hkv, aset_aset_same, List.length_append, List.length_cons,
      List.length_nil]
  · simp only [hhash]
    rw [aset_absent _ _ _ (by rw [← hhash]; exact hrec), recsAux_append]
    simp [Nat.add_comm]

theorem good_step (e : String) (op : CreateOp) (hop : op.entity = e)
    (l : List (List (String × String))) (s : RState) (hG : Good e l s)
    (hsucc : (handle op.run s).1.status = 200) :
    Good e (l ++ [op.fields]) (handle op.run s).2 := by
  obtain ⟨hkv, hhash, hout⟩ := hG
  cases op with
  | hospital n a b p =>
    simp only [CreateOp.entity] at hop
    subst hop
    rw [CreateOp.run] at hsucc ⊢
    rw [hospital_run n a b p s hout] at hsucc ⊢
    by_cases hv : n = "" ∨ a = ""
    · rw [if_pos hv] at hsucc
      simp at hsucc
    · rw [if_neg hv] at hsucc ⊢
      exact writePhase_good "hospital" l s _ _ 6 hkv hhash hout (by simp [writeFold, CreateOp.fields, aset])
  | doctor sn pr hid =>
    simp only [CreateOp.entity] at hop
    subst hop
    rw [CreateOp.run] at hsucc ⊢
    rw [doctor_run sn pr hid s hout] at hsucc ⊢
    by_cases hv : sn = "" ∨ pr = ""
    · rw [if_pos hv] at hsucc
      simp at hsucc
    · rw [if_neg hv] at hsucc ⊢
      have hlook : (alookup s.hashes (entity_key "hospital" hid)).getD [] = [] := by
        rw [hhash]
        rcases hsh : alookup (recsAux "doctor" 1 l) (entity_key "hospital" hid) with _ | r
        · simp
        · obtain ⟨j, hj⟩ := alookup_recsAux_shape "doctor" l 1 _ r hsh
          exact absurd hj (hospital_key_ne_doctor hid (Nat.repr j))
      by_cases hhid : hid = ""
      · rw [if_neg (by simp [hhid])] at hsucc ⊢
        exact writePhase_good "doctor" l s _ _ _ hkv hhash hout (by simp [writeFold, CreateOp.fields, aset])
      · rw [if_pos ⟨hhid, hlook⟩] at hsucc
        simp at hsucc
  | patient sn bd sex mpn =>
    simp only [CreateOp.entity] at hop
    subst hop
    rw [CreateOp.run] at hsucc ⊢
    rw [patient_run sn bd sex mpn s hout] at hsucc ⊢
    by_cases hv : sn = "" ∨ bd = "" ∨ sex = "" ∨ mpn = ""
    · rw [if_pos hv] at hsucc
      simp at hsucc
    · rw [if_neg hv] at hsucc ⊢
      by_cases hsex : sex ≠ "M" ∧ sex ≠ "F"
      · rw [if_pos hsex] at hsucc
        simp at hsucc
      · rw [if_neg hsex] at hsucc ⊢
        exact writePhase_good "patient" l s _ _ 6 hkv hhash hout (by simp [writeFold, CreateOp.fields, aset])
  | diagnosis pid dt info =>
    simp only [CreateOp.entity] at hop
    subst hop
    rw [CreateOp.run] at hsucc
    rw [diagnosis_run pid dt info s hout] at hsucc
    by_cases hv : pid = "" ∨ dt = ""
    · rw [if_pos hv] at hsucc
      simp at hsucc
    · rw [if_neg hv] at hsucc
      have hlook : (alookup s.hashes (entity_key "patient" pid)).getD [] = [] := by
        rw [hhash]
        rcases hsh : alookup (recsAux "diagnosis" 1 l) (entity_key "patient" pid) with _ | r
        · simp
        · obtain ⟨j, hj⟩ := alookup_recsAux_shape "diagnosis" l 1 _ r hsh
          exact absurd hj (patient_key_ne_diagnosis pid (Nat.repr j))
      rw [if_pos hlook] at hsucc
      simp at hsucc

theorem runCreates_good (e : String) :
    ∀ (ops : List CreateOp) (l : List (List (String × String))) (s : RState),
      (∀ op ∈ ops, op.entity = e) → Good e l s →
      (∀ r ∈ (runCreates ops s).1, r.status = 200) →
      Good e (l ++ ops.map CreateOp.fields) (runCreates ops s).2 := by
  intro ops
  induction ops with
  | nil =>
    intro l s _ hG _
    simpa [runCreates] using hG
  | cons op rest ih =>
    intro l s hops hG hsucc
    have h1 : (handle op.run s).1.status = 200 := by
      refine hsucc _ ?_
      simp [runCreates]
    have hG1 := good_step e op (hops op (by simp)) l s hG h1
    have h2 := ih (l ++ [op.fields]) (handle op.run s).2
      (fun o ho => hops o (by simp [ho]))
      hG1
      (fun r hr => hsucc r (by simp [runCreates]; right; exact hr))
    simp only [runCreates, List.map_cons]
    simpa [List.append_assoc] using h2

theorem listRecords_good (e : String) (L : List (List (String × String))) :
    ∀ (s : RState), s.hashes = recsAux e 1 L → (∀ f ∈ L, f ≠ []) →
      listRecords s e (List.range (L.length + 1)) = L := by
  induction L using List.reverseRecOn with
  | nil =>
    intro s hhash _
    simp [listRecords, hhash, alookup_recsAux, List.range_succ]
  | append_singleton L' f ih =>
    intro s hhash hne
    have hlen : (L' ++ [f]).length = L'.length + 1 := by simp
    rw [hlen, List.range_succ]
    simp only [listRecords, List.map_append, List.filter_append]
    have hchunk1 :
        (List.map (fun i => (alookup s.hashes (entity_key e (Nat.repr i))).getD [])
          (List.range (L'.length + 1))).filter (fun r => r ≠ [])
        = L' := by
      have hmapeq : List.map (fun i => (alookup s.hashes (entity_key e (Nat.repr i))).getD [])
            (List.range (L'.length + 1))
          = List.map (fun i =>
              (alookup (recsAux e 1 L') (entity_key e (Nat.repr i))).getD [])
            (List.range (L'.length + 1)) := by
        refine List.map_congr_left ?_
        intro i hi
        rw [List.mem_range] at hi
        rw [hhash, alookup_recsAux, alookup_recsAux]
        by_cases h1 : 1 ≤ i
        · rw [if_pos h1, if_pos h1, List.get?_append (by omega : i - 1 < L'.length)]
        · rw [if_neg h1, if_neg h1]
      rw [hmapeq]
      exact ih { s with hashes := recsAux e 1 L' } rfl
        (fun g hg => hne g (by simp [hg]))
    have hchunk2 :
        (List.map (fun i => (alookup s.hashes (entity_key e (Nat.repr i))).getD [])
          [L'.length + 1]).filter (fun r => r ≠ [])
        = [f] := by
      have hlast : alookup s.hashes (entity_key e (Nat.repr (L'.length + 1))) = some f := by
        rw [hhash, alookup_recsAux, if_pos (by omega : 1 ≤ L'.length + 1)]
        have : L'.length + 1 - 1 = L'.length := by omega
        rw [this, List.get?_concat_length]
      simp [hlast, hne f (by simp)]
    rw [hchunk1, hchunk2]

theorem int_toNat_ofNat (m : Nat) : (Int.ofNat m).toNat = m := rfl

theorem toInt_s1 : ("1" : String).toInt? = some 1 := by
  rw [show ("1" : String) = Nat.repr 1 from rfl, toInt?_repr]
  rfl

theorem toInt_s2 : ("2" : String).toInt? = some 2 := by
  rw [show ("2" : String) = Nat.repr 2 from rfl, toInt?_repr]
  rfl

theorem sBoot_eval :
    sBoot = { kv := initKv, hashes := [], sets := [], outages := [], calls := 6 } := by
  decide

/-- C2: for every entity type, starting from the bootstrapped state, after N
successful create operations of that type (no intervening failures), the
records are stored at ascending identifiers 1..N and the list operation
returns exactly the N field maps supplied at creation, in creation
(= ascending identifier) order. -/
theorem C2_list_after_successful_creates (e : String) (ops : List CreateOp)
    (he : e = "hospital" ∨ e = "doctor" ∨ e = "patient" ∨ e = "diagnosis")
    (hops : ∀ op ∈ ops, op.entity = e)
    (hsucc : ∀ r ∈ (runCreates ops sBoot).1, r.status = 200) :
    (runCreates ops sBoot).2.hashes = recsAux e 1 (ops.map CreateOp.fields) ∧
    (BaseHandler.fetch_hash_items e (runCreates ops sBoot).2).1
      = .ok (ops.map CreateOp.fields) := by
  have hG := runCreates_good e ops [] sBoot hops (good_boot e he) hsucc
  rw [List.nil_append] at hG
  obtain ⟨hkv, hhash, hout⟩ := hG
  refine ⟨hhash, ?_⟩
  rw [fetch_run e _ hout]
  have hcnt : alookup (runCreates ops sBoot).2.kv (autoid_key e)
      = some (Nat.repr ((ops.map CreateOp.fields).length + 1)) := by
    rw [hkv]
    exact alookup_aset_self _ _ _
  rw [hcnt]
  simp only [repr_ne_empty, toInt?_repr, if_false, int_toNat_ofNat]
  rw [listRecords_good e (ops.map CreateOp.fields) _ hhash ?hne]
  case hne =>
    intro f hf
    rw [List.mem_map] at hf
    obtain ⟨op, _, rfl⟩ := hf
    exact fields_ne_nil op

theorem int_repr_s2 : Int.repr 2 = "2" := rfl

/-- C2 witness: one successful hospital create from the bootstrapped state;
the hypotheses hold and the list operation returns that one record. -/
theorem C2_list_after_successful_creates_witness :
    (("hospital" : String) = "hospital" ∨ ("hospital" : String) = "doctor" ∨
      ("hospital" : String) = "patient" ∨ ("hospital" : String) = "diagnosis") ∧
    (∀ op ∈ [CreateOp.hospital "A" "B" "10" "7"], op.entity = "hospital") ∧
    (∀ r ∈ (runCreates [CreateOp.hospital "A" "B" "10" "7"] sBoot).1, r.status = 200) ∧
    ((runCreates [CreateOp.hospital "A" "B" "10" "7"] sBoot).2.hashes
       = recsAux "hospital" 1 ([CreateOp.hospital "A" "B" "10" "7"].map CreateOp.fields) ∧
     (BaseHandler.fetch_hash_items "hospital"
        (runCreates [CreateOp.hospital "A" "B" "10" "7"] sBoot).2).1
       = .ok ([CreateOp.hospital "A" "B" "10" "7"].map CreateOp.fields)) := by
  have hsucc : ∀ r ∈ (runCreates [CreateOp.hospital "A" "B" "10" "7"] sBoot).1,
      r.status = 200 := by
    have heval : (runCreates [CreateOp.hospital "A" "B" "10" "7"] sBoot).1
        = [{ status := 200, body := "OK: ID 1 for A" }] := by
      rw [sBoot_eval]
      simp [runCreates, handle, CreateOp.run, HospitalHandler.post, bindR, pureR, rget,
        rhset, rincr, step, alookup, aset, autoid_key, entity_key, decodeOr0, initKv,
        toInt_s1, int_repr_s2]
    rw [heval]
    intro r hr
    simp at hr
    rw [hr]
  exact ⟨Or.inl rfl, by decide, hsucc,
    C2_list_after_successful_creates "hospital" _ (Or.inl rfl) (by decide) hsucc⟩

theorem aset_lookup_self {α : Type} (l : List (String × α)) (k : String) (v : α)
    (h : alookup l k = some v) : aset l k v = l := by
  induction l with
  | nil => simp [alookup] at h
  | cons q rest ih =>
    obtain ⟨k1, v1⟩ := q
    by_cases hk : k1 = k
    · subst hk
      simp [alookup] at h
      simp [aset, h]
    · simp [alookup, hk] at h
      simp [aset, hk, ih h]

theorem toInt_empty : ("" : String).toInt? = none := by
  rw [toInt?_eval_nonneg _ (by decide), toNat?_eval]
  decide

theorem toInt_abc : ("abc" : String).toInt? = none := by
  rw [toInt?_eval_nonneg _ (by decide), toNat?_eval]
  decide

/-- C6: a create invoked with a missing/empty required field (or, for
Patient, a sex outside {M, F}) returns the 400 validation response and
leaves the store state (including the call counter) unchanged: zero store
accesses. The doctor-patient link create behaves the same on empty IDs. -/
theorem C6_validation_zero_store_access (op : CreateOp) (d p : String) (s : RState) :
    (op.missing_required →
      handle op.run s = ({ status := 400, body := op.validation_body }, s)) ∧
    ((d = "" ∨ p = "") →
      handle (DoctorPatientHandler.post d p) s
        = ({ status := 400, body := "ID required" }, s)) := by
  constructor
  · intro hmiss
    cases op with
    | hospital n a b pp =>
      obtain h | h := hmiss <;>
        simp [CreateOp.run, CreateOp.validation_body, handle, HospitalHandler.post,
          pureR, h]
    | doctor sn pr hid =>
      obtain h | h := hmiss <;>
        simp [CreateOp.run, CreateOp.validation_body, handle, DoctorHandler.post,
          pureR, h]
    | patient sn bd sex mpn =>
      by_cases hm : sn = "" ∨ bd = "" ∨ sex = "" ∨ mpn = ""
      · obtain h | h | h | h := hm <;>
          simp [CreateOp.run, CreateOp.validation_body, handle, PatientHandler.post,
            pureR, h]
      · have hsex : sex ≠ "M" ∧ sex ≠ "F" := by
          rcases hmiss with h | h | h | h | h
          · exact absurd (Or.inl h) hm
          · exact absurd (Or.inr (Or.inl h)) hm
          · exact absurd (Or.inr (Or.inr (Or.inl h))) hm
          · exact absurd (Or.inr (Or.inr (Or.inr h))) hm
          · exact h
        rw [not_or, not_or, not_or] at hm
        obtain ⟨h1, h2, h3, h4⟩ := hm
        simp [CreateOp.run, CreateOp.validation_body, handle, PatientHandler.post,
          pureR, h1, h2, h3, h4, hsex]
    | diagnosis pid dt info =>
      obtain h | h := hmiss <;>
        simp [CreateOp.run, CreateOp.validation_body, handle, DiagnosisHandler.post,
          pureR, h]
  · intro hmiss
    obtain h | h := hmiss <;>
      simp [handle, DoctorPatientHandler.post, pureR, h]

/-- C7: bootstrap is idempotent. If the sentinel is absent (or empty), all
four counters are set to 1 and the sentinel is set; if it is present,
nothing is written; and a second bootstrap call after any first one
performs only the sentinel read (no writes), leaving all counters at
their post-first-call values. -/
theorem C7_bootstrap_idempotent (s : RState) (hout : s.outages = []) :
    ((alookup s.kv "db_initiated" = none ∨ alookup s.kv "db_initiated" = some "") →
      (alookup (init_db s).2.kv (autoid_key "hospital") = some "1" ∧
       alookup (init_db s).2.kv (autoid_key "doctor") = some "1" ∧
       alookup (init_db s).2.kv (autoid_key "patient") = some "1" ∧
       alookup (init_db s).2.kv (autoid_key "diagnosis") = some "1" ∧
       alookup (init_db s).2.kv "db_initiated" = some "1")) ∧
    ((∃ v, alookup s.kv "db_initiated" = some v ∧ v ≠ "") →
      (init_db s).2 = { s with calls := s.calls + 1 }) ∧
    (init_db (init_db s).2).2 = { (init_db s).2 with calls := (init_db s).2.calls + 1 } := by
  have h1 := init_run s hout
  refine ⟨?_, ?_, ?_⟩
  · intro habs
    rw [h1, if_pos habs]
    simp only [initWrite]
    refine ⟨?_, ?_, ?_, ?_, ?_⟩ <;>
      simp [alookup_aset_self, alookup_aset_ne, autoid_key]
  · intro ⟨v, hv, hne⟩
    rw [h1, if_neg (by simp [hv, hne])]
  · by_cases habs : alookup s.kv "db_initiated" = none ∨ alookup s.kv "db_initiated" = some ""
    · rw [h1, if_pos habs]
      have hout2 : (RState.mk (initWrite s.kv) s.hashes s.sets s.outages (s.calls + 6)).outages = [] := hout
      rw [init_run _ hout2]
      rw [if_neg ?cond]
      case cond =>
        simp only [initWrite]
        simp [alookup_aset_self]
    · rw [h1, if_neg habs]
      have hout2 : (RState.mk s.kv s.hashes s.sets s.outages (s.calls + 1)).outages = [] := hout
      rw [init_run _ hout2]
      rw [if_neg habs]

/-- C10: if the stored counter key for an entity type is absent, or its
value does not parse as a decimal integer, the list operation returns the
empty sequence (no error). -/
theorem C10_list_empty_on_bad_counter (e : String) (s : RState) (hout : s.outages = [])
    (hbad : alookup s.kv (autoid_key e) = none ∨
      ∃ v, alookup s.kv (autoid_key e) = some v ∧ v.toInt? = none) :
    (BaseHandler.fetch_hash_items e s).1 = .ok [] := by
  rw [fetch_run e s hout]
  rcases hbad with h | ⟨v, hv, ht⟩
  · rw [h]
  · rw [hv]
    by_cases hvv : v = ""
    · simp [hvv]
    · simp [hvv, ht]

/-- C4: doctor creation validates the hospital reference asymmetrically.
With a non-empty `hospital_ID` that does not resolve to a present record,
the create returns the 400 reference error after exactly two store reads;
with an empty `hospital_ID` (other required fields valid, fresh record
slot, healthy counter) it succeeds with exactly five store accesses, i.e.
without any hospital lookup. -/
theorem C4_doctor_asymmetric_validation (s : RState) (sn pr hid : String) (hout : s.outages = [])
    (hsn : sn ≠ "") (hpr : pr ≠ "") :
    (hid ≠ "" → (alookup s.hashes (entity_key "hospital" hid)).getD [] = [] →
      handle (DoctorHandler.post sn pr hid) s
        = ({ status := 400, body := "No hospital with such ID" },
           { s with calls := s.calls + 2 })) ∧
    (incr_ok s.kv (autoid_key "doctor") →
     alookup s.hashes
        (entity_key "doctor" (decodeOr0 (alookup s.kv (autoid_key "doctor")))) = none →
      (handle (DoctorHandler.post sn pr "") s).1.status = 200 ∧
      (handle (DoctorHandler.post sn pr "") s).2.calls = s.calls + 5) := by
  constructor
  · intro hhid hlook
    rw [doctor_run sn pr hid s hout, if_neg (by simp [hsn, hpr]),
      if_pos ⟨hhid, hlook⟩]
  · intro hok hrec
    rw [doctor_run sn pr "" s hout, if_neg (by simp [hsn, hpr]), if_neg (by simp)]
    have hincr : ∃ kv', incrKV s.kv (autoid_key "doctor") = some kv' := by
      rw [incr_ok] at hok
      rw [incrKV]
      rcases hc : alookup s.kv (autoid_key "doctor") with _ | v
      · exact ⟨_, rfl⟩
      · rw [hc] at hok
        simp only at hok
        obtain ⟨m, hm⟩ := Option.isSome_iff_exists.mp hok
        exact ⟨aset s.kv (autoid_key "doctor") (Int.repr (m + 1)), by simp [hm]⟩
    obtain ⟨kv', hkv'⟩ := hincr
    simp only [writePhase, hkv', hrec, Option.getD_none]
    constructor
    · simp [wcount, alookup, aset]
    · simp

/-- C5: referential checks are unconditional for Diagnosis and for
doctor-patient links. A diagnosis create whose `patient_ID` does not
resolve returns the 400 reference error, and a link create where either
endpoint does not resolve returns the 400 reference error; in both cases
the state is unchanged except the two read accesses - no record or link
write occurs. -/
theorem C5_unconditional_reference_checks (s : RState) (pid dt info d p : String) (hout : s.outages = []) :
    (pid ≠ "" → dt ≠ "" →
      (alookup s.hashes (entity_key "patient" pid)).getD [] = [] →
      handle (DiagnosisHandler.post pid dt info) s
        = ({ status := 400, body := "No patient with such ID" },
           { s with calls := s.calls + 2 })) ∧
    (d ≠ "" → p ≠ "" →
      ((alookup s.hashes (entity_key "patient" p)).getD [] = [] ∨
       (alookup s.hashes (entity_key "doctor" d)).getD [] = []) →
      handle (DoctorPatientHandler.post d p) s
        = ({ status := 400, body := "No such ID for doctor or patient" },
           { s with calls := s.calls + 2 })) := by
  constructor
  · intro hpid hdt hlook
    rw [diagnosis_run pid dt info s hout, if_neg (by simp [hpid, hdt]), if_pos hlook]
  · intro hd hp hlook
    rw [link_run d p s hout, if_neg (by simp [hd, hp]), if_pos hlook]

theorem mem_saddList (cur : List String) (m : String) : m ∈ saddList cur m := by
  by_cases h : m ∈ cur <;> simp [saddList, h]

theorem saddList_idem (cur : List String) (m : String) :
    saddList (saddList cur m) m = saddList cur m := by
  rw [show saddList (saddList cur m) m
      = if m ∈ saddList cur m then saddList cur m else saddList cur m ++ [m] from rfl,
    if_pos (mem_saddList cur m)]

/-- C8: the link operation is idempotent - for a doctor and patient that
both resolve, performing link(d, p) twice yields the same member set for
d as performing it once; the second call changes neither `members(d)` nor
any link set. -/
theorem C8_link_idempotent (s : RState) (d p : String) (hout : s.outages = [])
    (hd : d ≠ "") (hp : p ≠ "")
    (hpat : (alookup s.hashes (entity_key "patient" p)).getD [] ≠ [])
    (hdoc : (alookup s.hashes (entity_key "doctor" d)).getD [] ≠ []) :
    members (handle (DoctorPatientHandler.post d p)
        (handle (DoctorPatientHandler.post d p) s).2).2 d
      = members (handle (DoctorPatientHandler.post d p) s).2 d ∧
    (handle (DoctorPatientHandler.post d p)
        (handle (DoctorPatientHandler.post d p) s).2).2.sets
      = (handle (DoctorPatientHandler.post d p) s).2.sets := by
  rw [link_run d p s hout, if_neg (by simp [hd, hp]), if_neg (by simp [hpat, hdoc])]
  have hout1 : (RState.mk s.kv s.hashes
      (aset s.sets (doctor_patient_key d) (saddList (members s d) p))
      s.outages (s.calls + 3)).outages = [] := hout
  rw [link_run d p _ hout1, if_neg (by simp [hd, hp]), if_neg (by simp [hpat, hdoc])]
  refine ⟨?_, ?_⟩
  · simp only [members, alookup_aset_self, Option.getD_some]
    exact saddList_idem _ _
  · simp only [members, alookup_aset_self, Option.getD_some, saddList_idem, aset_aset_same]

theorem alookup_aset_isSome {α : Type} (r : List (String × α)) (f g : String) (v : α)
    (h : (alookup r g).isSome) : (alookup (aset r f v) g).isSome := by
  by_cases hfg : f = g
  · subst hfg
    rw [alookup_aset_self]
    rfl
  · rw [alookup_aset_ne _ _ _ _ hfg]
    exact h

theorem wcount_zero (fields : List (String × String)) :
    ∀ r, (∀ fv ∈ fields, (alookup r fv.1).isSome) → wcount r fields = 0 := by
  induction fields with
  | nil => intro r _; rfl
  | cons fv rest ih =>
    intro r hall
    have h1 : (alookup r fv.1).isSome = true := hall fv (by simp)
    rw [wcount, if_pos h1, ih (aset r fv.1 fv.2)
      (fun g hg => alookup_aset_isSome _ _ _ _ (hall g (by simp [hg])))]

theorem alookup_writeFold_notmem (fields : List (String × String)) :
    ∀ r f, f ∉ fields.map Prod.fst → alookup (writeFold r fields) f = alookup r f := by
  induction fields with
  | nil => intro r f _; rfl
  | cons fv rest ih =>
    intro r f hf
    simp only [List.map_cons, List.mem_cons, not_or] at hf
    obtain ⟨h1, h2⟩ := hf
    rw [show writeFold r (fv :: rest) = writeFold (aset r fv.1 fv.2) rest from rfl,
      ih _ _ h2, alookup_aset_ne _ _ _ _ (fun hh => h1 hh.symm)]

theorem alookup_writeFold (fields : List (String × String)) :
    ∀ r, (fields.map Prod.fst).Nodup →
      ∀ fv ∈ fields, alookup (writeFold r fields) fv.1 = some fv.2 := by
  induction fields with
  | nil => intro r _ fv hfv; simp at hfv
  | cons gv rest ih =>
    intro r hnd fv hfv
    simp only [List.map_cons, List.nodup_cons] at hnd
    obtain ⟨hg, hnd'⟩ := hnd
    rcases List.mem_cons.mp hfv with rfl | hmem
    · rw [show writeFold r (fv :: rest) = writeFold (aset r fv.1 fv.2) rest from rfl,
        alookup_writeFold_notmem rest _ fv.1 hg, alookup_aset_self]
    · exact ih (aset r gv.1 gv.2) hnd' fv hmem

theorem fields_nodup (op : CreateOp) : (op.fields.map Prod.fst).Nodup := by
  cases op <;> simp [CreateOp.fields]

theorem incrKV_isSome (kv : List (String × String)) (key : String)
    (hok : incr_ok kv key) : ∃ kv2, incrKV kv key = some kv2 := by
  rw [incr_ok] at hok
  rw [incrKV]
  rcases hc : alookup kv key with _ | v
  · exact ⟨_, rfl⟩
  · rw [hc] at hok
    simp only at hok
    obtain ⟨m, hm⟩ := Option.isSome_iff_exists.mp hok
    exact ⟨aset kv key (Int.repr (m + 1)), by simp [hm]⟩

/-- C9 (implicit): when a create writes to an identifier whose record
already contains all the op's field names, every per-field write returns
0 (the field exists), so the operation reports the write-inconsistency
error - even though every field value was in fact overwritten with the
supplied data. -/
theorem C9_rewrite_reports_write_inconsistency (op : CreateOp) (s : RState) (hout : s.outages = [])
    (hval : ¬ op.missing_required) (href : op.refs_ok s)
    (hok : incr_ok s.kv (autoid_key op.entity))
    (hfields : ∀ fv ∈ op.fields,
      (alookup ((alookup s.hashes (peek_key op s)).getD []) fv.1).isSome) :
    (handle op.run s).1 = { status := 500, body := "Something went terribly wrong" } ∧
    (∀ fv ∈ op.fields,
      alookup ((alookup (handle op.run s).2.hashes (peek_key op s)).getD []) fv.1
        = some fv.2) := by
  have hwf := alookup_writeFold op.fields
    ((alookup s.hashes (peek_key op s)).getD []) (fields_nodup op)
  have hwc := wcount_zero op.fields
    ((alookup s.hashes (peek_key op s)).getD []) hfields
  obtain ⟨kv2, hkv2⟩ := incrKV_isSome s.kv (autoid_key op.entity) hok
  cases op with
  | hospital n a b p =>
    rw [CreateOp.missing_required, not_or] at hval
    obtain ⟨h1, h2⟩ := hval
    rw [CreateOp.run] at *
    rw [hospital_run n a b p s hout, if_neg (by simp [h1, h2])]
    simp only [writePhase, peek_key, CreateOp.entity, CreateOp.fields] at *
    rw [hkv2]
    simp only [hwc]
    refine ⟨by norm_num, ?_⟩
    simp only [alookup_aset_self, Option.getD_some]
    exact hwf
  | doctor sn pr hid =>
    rw [CreateOp.missing_required, not_or] at hval
    obtain ⟨h1, h2⟩ := hval
    rw [CreateOp.refs_ok] at href
    rw [CreateOp.run] at *
    rw [doctor_run sn pr hid s hout, if_neg (by simp [h1, h2]),
      if_neg (by rcases href with h | h <;> simp [h])]
    simp only [writePhase, peek_key, CreateOp.entity, CreateOp.fields] at *
    rw [hkv2]
    simp only [hwc]
    refine ⟨by norm_num, ?_⟩
    simp only [alookup_aset_self, Option.getD_some]
    exact hwf
  | patient sn bd sex mpn =>
    rw [CreateOp.missing_required, not_or, not_or, not_or] at hval
    obtain ⟨h1, h2, h3, h4'⟩ := hval
    rw [not_or] at h4'
    obtain ⟨h4, h5⟩ := h4'
    rw [CreateOp.run] at *
    rw [patient_run sn bd sex mpn s hout, if_neg (by simp [h1, h2, h3, h4]),
      if_neg h5]
    simp only [writePhase, peek_key, CreateOp.entity, CreateOp.fields] at *
    rw [hkv2]
    simp only [hwc]
    refine ⟨by norm_num, ?_⟩
    simp only [alookup_aset_self, Option.getD_some]
    exact hwf
  | diagnosis pid dt info =>
    rw [CreateOp.missing_required, not_or] at hval
    obtain ⟨h1, h2⟩ := hval
    rw [CreateOp.refs_ok] at href
    rw [CreateOp.run] at *
    rw [diagnosis_run pid dt info s hout, if_neg (by simp [h1, h2]), if_neg href]
    simp only [writePhase, peek_key, CreateOp.entity, CreateOp.fields] at *
    rw [hkv2]
    simp only [hwc]
    refine ⟨by norm_num, ?_⟩
    simp only [alookup_aset_self, Option.getD_some]
    exact hwf

theorem advanced_of_incrKV (kv : List (String × String)) (key : String)
    (kv2 : List (String × String)) (h : incrKV kv key = some kv2) :
    advanced (alookup kv key) (alookup kv2 key) := by
  rw [incrKV] at h
  rcases hc : alookup kv key with _ | v
  · rw [hc] at h
    simp only [Option.some_inj] at h
    exact Or.inl ⟨rfl, by rw [← h, alookup_aset_self]⟩
  · rw [hc] at h
    simp only at h
    rcases ht : v.toInt? with _ | m
    · rw [ht] at h
      simp at h
    · rw [ht] at h
      simp only [Option.map, Option.some_inj] at h
      exact Or.inr ⟨v, m, rfl, ht, by rw [← h, alookup_aset_self]⟩

/-- C1 (amended): contrary to the claim, in the WriteInconsistencyError
case the allocator counter IS advanced - the increment runs
unconditionally once the write phase is reached, before the success-count
check. Whenever a create returns the write-inconsistency response, the
counter moved from its old value to old+1 (or from absent to "1"). -/
theorem C1_amended_counter_advances (op : CreateOp) (s : RState) (hout : s.outages = [])
    (h500 : (handle op.run s).1
      = { status := 500, body := "Something went terribly wrong" }) :
    advanced (alookup s.kv (autoid_key op.entity))
      (alookup (handle op.run s).2.kv (autoid_key op.entity)) := by
  cases op with
  | hospital n a b p =>
    rw [CreateOp.run] at *
    rw [hospital_run n a b p s hout] at h500 ⊢
    by_cases hv : n = "" ∨ a = ""
    · rw [if_pos hv] at h500
      simp at h500
    · rw [if_neg hv] at h500 ⊢
      rcases hik : incrKV s.kv (autoid_key "hospital") with _ | kv2
      · simp [writePhase, CreateOp.entity, hik] at h500
      · simp only [writePhase, CreateOp.entity, hik]
        exact advanced_of_incrKV _ _ _ hik
  | doctor sn pr hid =>
    rw [CreateOp.run] at *
    rw [doctor_run sn pr hid s hout] at h500 ⊢
    by_cases hv : sn = "" ∨ pr = ""
    · rw [if_pos hv] at h500
      simp at h500
    · rw [if_neg hv] at h500 ⊢
      by_cases href : hid ≠ "" ∧ (alookup s.hashes (entity_key "hospital" hid)).getD [] = []
      · rw [if_pos href] at h500
        simp at h500
      · rw [if_neg href] at h500 ⊢
        rcases hik : incrKV s.kv (autoid_key "doctor") with _ | kv2
        · simp [writePhase, CreateOp.entity, hik] at h500
        · simp only [writePhase, CreateOp.entity, hik]
          exact advanced_of_incrKV _ _ _ hik
  | patient sn bd sex mpn =>
    rw [CreateOp.run] at *
    rw [patient_run sn bd sex mpn s hout] at h500 ⊢
    by_cases hv : sn = "" ∨ bd = "" ∨ sex = "" ∨ mpn = ""
    · rw [if_pos hv] at h500
      simp at h500
    · rw [if_neg hv] at h500 ⊢
      by_cases hsex : sex ≠ "M" ∧ sex ≠ "F"
      · rw [if_pos hsex] at h500
        simp at h500
      · rw [if_neg hsex] at h500 ⊢
        rcases hik : incrKV s.kv (autoid_key "patient") with _ | kv2
        · simp [writePhase, CreateOp.entity, hik] at h500
        · simp only [writePhase, CreateOp.entity, hik]
          exact advanced_of_incrKV _ _ _ hik
  | diagnosis pid dt info =>
    rw [CreateOp.run] at *
    rw [diagnosis_run pid dt info s hout] at h500 ⊢
    by_cases hv : pid = "" ∨ dt = ""
    · rw [if_pos hv] at h500
      simp at h500
    · rw [if_neg hv] at h500 ⊢
      by_cases href : (alookup s.hashes (entity_key "patient" pid)).getD [] = []
      · rw [if_pos href] at h500
        simp at h500
      · rw [if_neg href] at h500 ⊢
        rcases hik : incrKV s.kv (autoid_key "diagnosis") with _ | kv2
        · simp [writePhase, CreateOp.entity, hik] at h500
        · simp only [writePhase, CreateOp.entity, hik]
          exact advanced_of_incrKV _ _ _ hik

/-- C3 (amended): the counter never decreases, and absent connection
failures each create either leaves the string keys and records untouched
(validation or reference failure) or performs its write phase at exactly
the peeked identifier v and advances the counter from n to n+1 - so
identifiers are never reused while no connection failure intervenes. A
connection-interrupted create, however, does not advance the counter and
its identifier is issued again (see the counterexample). -/
theorem C3_amended_counter_behavior (op : CreateOp) (s : RState) (v : String) (n : Int)
    (hout : s.outages = [])
    (hv : alookup s.kv (autoid_key op.entity) = some v)
    (hn : v.toInt? = some n) :
    ((handle op.run s).2.kv = s.kv ∧ (handle op.run s).2.hashes = s.hashes) ∨
    ((handle op.run s).2.kv = aset s.kv (autoid_key op.entity) (Int.repr (n + 1)) ∧
     (handle op.run s).2.hashes = aset s.hashes (entity_key op.entity v)
       (writeFold ((alookup s.hashes (entity_key op.entity v)).getD []) op.fields)) := by
  have hvne : v ≠ "" := by
    intro hh
    rw [hh, toInt_empty] at hn
    exact Option.noConfusion hn
  have hdec : decodeOr0 (some v) = v := by simp [decodeOr0, hvne]
  cases op with
  | hospital nm a b p =>
    simp only [CreateOp.entity] at hv ⊢
    have hincr : incrKV s.kv (autoid_key "hospital")
        = some (aset s.kv (autoid_key "hospital") (Int.repr (n + 1))) := by
      rw [incrKV, hv]
      simp [hn]
    rw [CreateOp.run, hospital_run nm a b p s hout]
    by_cases hval : nm = "" ∨ a = ""
    · rw [if_pos hval]
      exact Or.inl ⟨rfl, rfl⟩
    · rw [if_neg hval]
      right
      simp [writePhase, hv, hdec, hincr, CreateOp.fields]
  | doctor sn pr hid =>
    simp only [CreateOp.entity] at hv ⊢
    have hincr : incrKV s.kv (autoid_key "doctor")
        = some (aset s.kv (autoid_key "doctor") (Int.repr (n + 1))) := by
      rw [incrKV, hv]
      simp [hn]
    rw [CreateOp.run, doctor_run sn pr hid s hout]
    by_cases hval : sn = "" ∨ pr = ""
    · rw [if_pos hval]
      exact Or.inl ⟨rfl, rfl⟩
    · rw [if_neg hval]
      by_cases href : hid ≠ "" ∧ (alookup s.hashes (entity_key "hospital" hid)).getD [] = []
      · rw [if_pos href]
        exact Or.inl ⟨rfl, rfl⟩
      · rw [if_neg href]
        right
        simp [writePhase, hv, hdec, hincr, CreateOp.fields]
  | patient sn bd sex mpn =>
    simp only [CreateOp.entity] at hv ⊢
    have hincr : incrKV s.kv (autoid_key "patient")
        = some (aset s.kv (autoid_key "patient") (Int.repr (n + 1))) := by
      rw [incrKV, hv]
      simp [hn]
    rw [CreateOp.run, patient_run sn bd sex mpn s hout]
    by_cases hval : sn = "" ∨ bd = "" ∨ sex = "" ∨ mpn = ""
    · rw [if_pos hval]
      exact Or.inl ⟨rfl, rfl⟩
    · rw [if_neg hval]
      by_cases hsex : sex ≠ "M" ∧ sex ≠ "F"
      · rw [if_pos hsex]
        exact Or.inl ⟨rfl, rfl⟩
      · rw [if_neg hsex]
        right
        simp [writePhase, hv, hdec, hincr, CreateOp.fields]
  | diagnosis pid dt info =>
    simp only [CreateOp.entity] at hv ⊢
    have hincr : incrKV s.kv (autoid_key "diagnosis")
        = some (aset s.kv (autoid_key "diagnosis") (Int.repr (n + 1))) := by
      rw [incrKV, hv]
      simp [hn]
    rw [CreateOp.run, diagnosis_run pid dt info s hout]
    by_cases hval : pid = "" ∨ dt = ""
    · rw [if_pos hval]
      exact Or.inl ⟨rfl, rfl⟩
    · rw [if_neg hval]
      by_cases href : (alookup s.hashes (entity_key "patient" pid)).getD [] = []
      · rw [if_pos href]
        exact Or.inl ⟨rfl, rfl⟩
      · rw [if_neg href]
        right
        simp [writePhase, hv, hdec, hincr, CreateOp.fields]

/-- C1 counterexample: a hospital create on a state whose next identifier
already holds a `name` field reports the write-inconsistency error (500,
"Something went terribly wrong"), yet the hospital counter advances from
"1" to "2" - refuting "the allocator counter is not advanced in this
case". -/
theorem C1_counterexample :
    (handle (HospitalHandler.post "A" "B" "10" "7") { kv := [("hospital:autoID", "1")], hashes := [("hospital:1", [("name", "z")])], sets := [], outages := [], calls := 0 }).1
      = { status := 500, body := "Something went terribly wrong" } ∧
    alookup ({ kv := [("hospital:autoID", "1")], hashes := [("hospital:1", [("name", "z")])], sets := [], outages := [], calls := 0 } : RState).kv (autoid_key "hospital") = some "1" ∧
    alookup (handle (HospitalHandler.post "A" "B" "10" "7") { kv := [("hospital:autoID", "1")], hashes := [("hospital:1", [("name", "z")])], sets := [], outages := [], calls := 0 }).2.kv (autoid_key "hospital") = some "2" := by
  refine ⟨?_, by decide, ?_⟩ <;>
    simp [handle, HospitalHandler.post, bindR, pureR, rget, rhset, rincr, step,
      alookup, aset, autoid_key, entity_key, decodeOr0, toInt_s1, int_repr_s2]

/-- C1 amended witness: the hypotheses of the amended theorem hold at a
concrete state and the counter is advanced there. -/
theorem C1_amended_counter_advances_witness :
    ({ kv := [("hospital:autoID", "1")], hashes := [("hospital:1", [("name", "z")])], sets := [], outages := [], calls := 0 } : RState).outages = [] ∧
    (handle (CreateOp.hospital "A" "B" "10" "7").run { kv := [("hospital:autoID", "1")], hashes := [("hospital:1", [("name", "z")])], sets := [], outages := [], calls := 0 }).1
      = { status := 500, body := "Something went terribly wrong" } ∧
    advanced (alookup ({ kv := [("hospital:autoID", "1")], hashes := [("hospital:1", [("name", "z")])], sets := [], outages := [], calls := 0 } : RState).kv (autoid_key "hospital"))
      (alookup (handle (CreateOp.hospital "A" "B" "10" "7").run { kv := [("hospital:autoID", "1")], hashes := [("hospital:1", [("name", "z")])], sets := [], outages := [], calls := 0 }).2.kv (autoid_key "hospital")) := by
  have h500 : (handle (CreateOp.hospital "A" "B" "10" "7").run { kv := [("hospital:autoID", "1")], hashes := [("hospital:1", [("name", "z")])], sets := [], outages := [], calls := 0 }).1
      = { status := 500, body := "Something went terribly wrong" } := by
    simp [handle, CreateOp.run, HospitalHandler.post, bindR, pureR, rget, rhset, rincr,
      step, alookup, aset, autoid_key, entity_key, decodeOr0, toInt_s1, int_repr_s2]
  exact ⟨rfl, h500, C1_amended_counter_advances _ _ rfl h500⟩

/-- C3 counterexample: a connection-failing hospital create peeks
identifier 1 and partially writes it (`name` = "A1") without advancing
the counter; the next create issues identifier 1 AGAIN, overwriting the
record - refuting "an identifier once issued is never issued again" and
"the counter equals one plus the highest identifier ever issued" (after
the first create the counter still equals 1, the identifier it used). -/
theorem C3_counterexample :
    (handle (HospitalHandler.post "A1" "A2" "A3" "A4") { kv := [("hospital:autoID", "1")], hashes := [], sets := [], outages := [false, false, true], calls := 0 }).1
      = { status := 400, body := "Redis connection refused" } ∧
    alookup (handle (HospitalHandler.post "A1" "A2" "A3" "A4") { kv := [("hospital:autoID", "1")], hashes := [], sets := [], outages := [false, false, true], calls := 0 }).2.kv (autoid_key "hospital") = some "1" ∧
    alookup (handle (HospitalHandler.post "A1" "A2" "A3" "A4") { kv := [("hospital:autoID", "1")], hashes := [], sets := [], outages := [false, false, true], calls := 0 }).2.hashes (entity_key "hospital" "1") = some [("name", "A1")] ∧
    (handle (HospitalHandler.post "B1" "B2" "B3" "B4") (handle (HospitalHandler.post "A1" "A2" "A3" "A4") { kv := [("hospital:autoID", "1")], hashes := [], sets := [], outages := [false, false, true], calls := 0 }).2).1
      = { status := 500, body := "Something went terribly wrong" } ∧
    alookup (handle (HospitalHandler.post "B1" "B2" "B3" "B4") (handle (HospitalHandler.post "A1" "A2" "A3" "A4") { kv := [("hospital:autoID", "1")], hashes := [], sets := [], outages := [false, false, true], calls := 0 }).2).2.hashes (entity_key "hospital" "1")
      = some [("name", "B1"), ("address", "B2"), ("phone", "B4"), ("beds_number", "B3")] ∧
    alookup (handle (HospitalHandler.post "B1" "B2" "B3" "B4") (handle (HospitalHandler.post "A1" "A2" "A3" "A4") { kv := [("hospital:autoID", "1")], hashes := [], sets := [], outages := [false, false, true], calls := 0 }).2).2.kv (autoid_key "hospital") = some "2" := by
  refine ⟨?_, ?_, ?_, ?_, ?_, ?_⟩ <;>
    simp [handle, HospitalHandler.post, bindR, pureR, rget, rhset, rincr, step,
      alookup, aset, autoid_key, entity_key, decodeOr0, toInt_s1, int_repr_s2]

/-- C3 amended witness: at a concrete bootstrapped-counter state, a valid
hospital create takes the write-phase branch: counter "1" becomes "2" and
the record is written at identifier 1. -/
theorem C3_amended_counter_behavior_witness :
    ({ kv := [("hospital:autoID", "1")], hashes := [], sets := [], outages := [], calls := 0 } : RState).outages = [] ∧
    alookup ({ kv := [("hospital:autoID", "1")], hashes := [], sets := [], outages := [], calls := 0 } : RState).kv (autoid_key (CreateOp.hospital "X" "Y" "Z" "W").entity) = some "1" ∧
    ("1" : String).toInt? = some 1 ∧
    (((handle (CreateOp.hospital "X" "Y" "Z" "W").run { kv := [("hospital:autoID", "1")], hashes := [], sets := [], outages := [], calls := 0 }).2.kv = ({ kv := [("hospital:autoID", "1")], hashes := [], sets := [], outages := [], calls := 0 } : RState).kv ∧
      (handle (CreateOp.hospital "X" "Y" "Z" "W").run { kv := [("hospital:autoID", "1")], hashes := [], sets := [], outages := [], calls := 0 }).2.hashes = ({ kv := [("hospital:autoID", "1")], hashes := [], sets := [], outages := [], calls := 0 } : RState).hashes) ∨
     ((handle (CreateOp.hospital "X" "Y" "Z" "W").run { kv := [("hospital:autoID", "1")], hashes := [], sets := [], outages := [], calls := 0 }).2.kv = aset ({ kv := [("hospital:autoID", "1")], hashes := [], sets := [], outages := [], calls := 0 } : RState).kv (autoid_key (CreateOp.hospital "X" "Y" "Z" "W").entity) (Int.repr (1 + 1)) ∧
      (handle (CreateOp.hospital "X" "Y" "Z" "W").run { kv := [("hospital:autoID", "1")], hashes := [], sets := [], outages := [], calls := 0 }).2.hashes = aset ({ kv := [("hospital:autoID", "1")], hashes := [], sets := [], outages := [], calls := 0 } : RState).hashes (entity_key (CreateOp.hospital "X" "Y" "Z" "W").entity "1")
        (writeFold ((alookup ({ kv := [("hospital:autoID", "1")], hashes := [], sets := [], outages := [], calls := 0 } : RState).hashes (entity_key (CreateOp.hospital "X" "Y" "Z" "W").entity "1")).getD []) (CreateOp.hospital "X" "Y" "Z" "W").fields))) := by
  exact ⟨rfl, by decide, toInt_s1,
    C3_amended_counter_behavior (CreateOp.hospital "X" "Y" "Z" "W") _ "1" 1 rfl (by decide) toInt_s1⟩

/-- C4 witness: from the bootstrapped state, a doctor create with
unresolvable hospital_ID "9" returns the reference error, and one with an
empty hospital_ID succeeds with exactly five store accesses. -/
theorem C4_doctor_asymmetric_validation_witness :
    sBoot.outages = [] ∧ ("X" : String) ≠ "" ∧ ("Y" : String) ≠ "" ∧
    handle (DoctorHandler.post "X" "Y" "9") sBoot
      = ({ status := 400, body := "No hospital with such ID" }, { sBoot with calls := sBoot.calls + 2 }) ∧
    (handle (DoctorHandler.post "X" "Y" "") sBoot).1.status = 200 ∧
    (handle (DoctorHandler.post "X" "Y" "") sBoot).2.calls = sBoot.calls + 5 := by
  have hok : incr_ok sBoot.kv (autoid_key "doctor") := by
    rw [incr_ok, show alookup sBoot.kv (autoid_key "doctor") = some "1" from by decide]
    simp [toInt_s1]
  have hrec : alookup sBoot.hashes
      (entity_key "doctor" (decodeOr0 (alookup sBoot.kv (autoid_key "doctor")))) = none := by
    decide
  refine ⟨rfl, by decide, by decide, ?_, ?_, ?_⟩
  · exact (C4_doctor_asymmetric_validation sBoot "X" "Y" "9" rfl (by decide) (by decide)).1 (by decide) (by decide)
  · exact ((C4_doctor_asymmetric_validation sBoot "X" "Y" "9" rfl (by decide) (by decide)).2 hok hrec).1
  · exact ((C4_doctor_asymmetric_validation sBoot "X" "Y" "9" rfl (by decide) (by decide)).2 hok hrec).2

/-- C5 witness: from the bootstrapped state (no records), a diagnosis
create and a link create both fail with their reference errors and write
nothing. -/
theorem C5_unconditional_reference_checks_witness :
    sBoot.outages = [] ∧
    handle (DiagnosisHandler.post "5" "flu" "acute") sBoot
      = ({ status := 400, body := "No patient with such ID" }, { sBoot with calls := sBoot.calls + 2 }) ∧
    handle (DoctorPatientHandler.post "1" "1") sBoot
      = ({ status := 400, body := "No such ID for doctor or patient" }, { sBoot with calls := sBoot.calls + 2 }) := by
  refine ⟨rfl, ?_, ?_⟩
  · exact (C5_unconditional_reference_checks sBoot "5" "flu" "acute" "1" "1" rfl).1 (by decide) (by decide) (by decide)
  · exact (C5_unconditional_reference_checks sBoot "5" "flu" "acute" "1" "1" rfl).2 (by decide) (by decide) (Or.inl (by decide))

/-- C6 witness: a hospital create with an empty name and a link create
with an empty doctor ID both return the validation response and leave the
empty state untouched. -/
theorem C6_validation_zero_store_access_witness :
    (CreateOp.hospital "" "B" "10" "7").missing_required ∧
    handle (CreateOp.hospital "" "B" "10" "7").run emptyState
      = ({ status := 400, body := "Hospital name and address required" }, emptyState) ∧
    (("" : String) = "" ∨ ("x" : String) = "") ∧
    handle (DoctorPatientHandler.post "" "x") emptyState
      = ({ status := 400, body := "ID required" }, emptyState) := by
  refine ⟨Or.inl rfl, ?_, Or.inl rfl, ?_⟩
  · exact (C6_validation_zero_store_access (CreateOp.hospital "" "B" "10" "7") "" "x" emptyState).1 (Or.inl rfl)
  · exact (C6_validation_zero_store_access (CreateOp.hospital "" "B" "10" "7") "" "x" emptyState).2 (Or.inl rfl)

/-- C7 witness: bootstrapping the empty store sets the four counters and
the sentinel to "1", and a second bootstrap performs only the sentinel
read. -/
theorem C7_bootstrap_idempotent_witness :
    emptyState.outages = [] ∧
    (alookup (init_db emptyState).2.kv (autoid_key "hospital") = some "1" ∧
     alookup (init_db emptyState).2.kv (autoid_key "doctor") = some "1" ∧
     alookup (init_db emptyState).2.kv (autoid_key "patient") = some "1" ∧
     alookup (init_db emptyState).2.kv (autoid_key "diagnosis") = some "1" ∧
     alookup (init_db emptyState).2.kv "db_initiated" = some "1") ∧
    (init_db (init_db emptyState).2).2
      = { (init_db emptyState).2 with calls := (init_db emptyState).2.calls + 1 } := by
  refine ⟨rfl, ?_, ?_⟩
  · exact (C7_bootstrap_idempotent emptyState rfl).1 (Or.inl (by decide))
  · exact (C7_bootstrap_idempotent emptyState rfl).2.2

/-- C8 witness: with patient 1 and doctor 1 present, linking the pair
twice leaves members("1") the same as linking once. -/
theorem C8_link_idempotent_witness :
    ({ kv := [], hashes := [("patient:1", [("surname", "S")]), ("doctor:1", [("surname", "D")])], sets := [], outages := [], calls := 0 } : RState).outages = [] ∧
    ("1" : String) ≠ "" ∧
    members (handle (DoctorPatientHandler.post "1" "1")
        (handle (DoctorPatientHandler.post "1" "1") { kv := [], hashes := [("patient:1", [("surname", "S")]), ("doctor:1", [("surname", "D")])], sets := [], outages := [], calls := 0 }).2).2 "1"
      = members (handle (DoctorPatientHandler.post "1" "1") { kv := [], hashes := [("patient:1", [("surname", "S")]), ("doctor:1", [("surname", "D")])], sets := [], outages := [], calls := 0 }).2 "1" := by
  refine ⟨rfl, by decide, ?_⟩
  exact (C8_link_idempotent _ "1" "1" rfl (by decide) (by decide) (by decide) (by decide)).1

/-- C9 witness: a hospital create over a fully pre-populated record at
the peeked identifier returns the write-inconsistency error while all
four supplied values are nevertheless stored. -/
theorem C9_rewrite_reports_write_inconsistency_witness :
    ({ kv := [("hospital:autoID", "1")], hashes := [("hospital:1", [("name", "x"), ("address", "y"), ("phone", "z"), ("beds_number", "w")])], sets := [], outages := [], calls := 0 } : RState).outages = [] ∧
    (handle (CreateOp.hospital "A" "B" "10" "7").run { kv := [("hospital:autoID", "1")], hashes := [("hospital:1", [("name", "x"), ("address", "y"), ("phone", "z"), ("beds_number", "w")])], sets := [], outages := [], calls := 0 }).1
      = { status := 500, body := "Something went terribly wrong" } ∧
    (∀ fv ∈ (CreateOp.hospital "A" "B" "10" "7").fields,
      alookup ((alookup (handle (CreateOp.hospital "A" "B" "10" "7").run { kv := [("hospital:autoID", "1")], hashes := [("hospital:1", [("name", "x"), ("address", "y"), ("phone", "z"), ("beds_number", "w")])], sets := [], outages := [], calls := 0 }).2.hashes
          (peek_key (CreateOp.hospital "A" "B" "10" "7") { kv := [("hospital:autoID", "1")], hashes := [("hospital:1", [("name", "x"), ("address", "y"), ("phone", "z"), ("beds_number", "w")])], sets := [], outages := [], calls := 0 })).getD []) fv.1
        = some fv.2) := by
  have hok : incr_ok ({ kv := [("hospital:autoID", "1")], hashes := [("hospital:1", [("name", "x"), ("address", "y"), ("phone", "z"), ("beds_number", "w")])], sets := [], outages := [], calls := 0 } : RState).kv (autoid_key (CreateOp.hospital "A" "B" "10" "7").entity) := by
    rw [incr_ok, show alookup ({ kv := [("hospital:autoID", "1")], hashes := [("hospital:1", [("name", "x"), ("address", "y"), ("phone", "z"), ("beds_number", "w")])], sets := [], outages := [], calls := 0 } : RState).kv (autoid_key (CreateOp.hospital "A" "B" "10" "7").entity) = some "1" from by decide]
    simp [toInt_s1]
  have h9 := C9_rewrite_reports_write_inconsistency (CreateOp.hospital "A" "B" "10" "7") _ rfl
    (by decide : ¬ (("A" : String) = "" ∨ ("B" : String) = ""))
    trivial hok (by decide)
  exact ⟨rfl, h9.1, h9.2⟩

/-- C10 witness: with the hospital counter holding the non-integer value
"abc", the list operation returns the empty sequence. -/
theorem C10_list_empty_on_bad_counter_witness :
    ({ kv := [("hospital:autoID", "abc")], hashes := [], sets := [], outages := [], calls := 0 } : RState).outages = [] ∧
    (alookup ({ kv := [("hospital:autoID", "abc")], hashes := [], sets := [], outages := [], calls := 0 } : RState).kv (autoid_key "hospital") = some "abc" ∧ ("abc" : String).toInt? = none) ∧
    (BaseHandler.fetch_hash_items "hospital" { kv := [("hospital:autoID", "abc")], hashes := [], sets := [], outages := [], calls := 0 }).1 = .ok [] := by
  refine ⟨rfl, ⟨by decide, toInt_abc⟩, ?_⟩
  exact C10_list_empty_on_bad_counter "hospital" _ rfl (Or.inr ⟨"abc", by decide, toInt_abc⟩)
